import Mathlib

/-!
The soft joint limiter and the limiter frontend of `joint_limits`.

A shallow embedding of `JointSoftLimiter::on_enforce`
(`joint_limits/src/joint_soft_limiter.cpp`) and of the `init` / parameter callback /
`enforce` paths of `JointLimiterInterface`
(`joint_limits/include/joint_limits/joint_limiter_interface.hpp`).

Conventions of the embedding.

* A C++ `double` is a value of `Dbl`: NaN, the two infinities, negative zero, or a
  finite value carried as an exact rational.  Comparisons and the propagation of the
  special values follow IEEE-754; finite arithmetic is exact (no rounding, no overflow).
* `std::optional<double>` is `Option Dbl`; `has_position()` is `Option.isSome`.
* `std::max(a, b)` is `(a < b) ? b : a`, `std::min(a, b)` is `(b < a) ? b : a`, and
  `std::clamp(v, lo, hi)` is `(v < lo) ? lo : (hi < v) ? hi : v` whenever its precondition
  `!(hi < lo)` holds.  Outside the precondition the C++ standard leaves the result
  undefined; the embedding takes that result from `Env.clamp_undefined`, so that a
  theorem stated for every `Env` holds for whatever the standard library at hand returns
  there.
* Everything `on_enforce` calls that lives outside the two embedded files (the solver
  helpers `compute_*_limits`, the soft-limit predicates, the tolerance constant) is a
  field of `Env`; `scenario_env` is one such environment, with the helpers as the spec
  describes them, on which the scenarios are run.
* `on_enforce` reads index 0 of `joint_limits_` and `joint_names_`; on an empty vector
  that read has no result and the embedding returns `none`.
* The mutex of `on_enforce` and the threads of the realtime buffer are not modelled:
  calls run one after the other.
-/

namespace joint_limits

/-- A C++ `double`: NaN, minus/plus infinity, negative zero, or a finite value
(`fin 0` is positive zero). -/
inductive Dbl where
  | nan : Dbl
  | ninf : Dbl
  | pinf : Dbl
  | nzero : Dbl
  | fin (q : ℚ) : Dbl
deriving DecidableEq

namespace Dbl

/-- The numeric value of a finite double (both zeros are 0; 0 on the special values). -/
def val : Dbl → ℚ
  | fin q => q
  | _ => 0

/-- Reads `std::isnan`. -/
def isNaN : Dbl → Bool
  | nan => true
  | _ => false

/-- Reads `std::isinf`. -/
def isInf : Dbl → Bool
  | ninf => true
  | pinf => true
  | _ => false

/-- Reads `std::isfinite`: neither NaN nor an infinity. -/
def isfinite : Dbl → Bool
  | nzero => true
  | fin _ => true
  | _ => false

/-- Tells whether the value compares equal to zero. -/
def isZero : Dbl → Bool
  | nzero => true
  | fin q => decide (q = 0)
  | _ => false

/-- The sign bit; `nanSign` is the sign bit a NaN happens to carry. -/
def signbit (nanSign : Bool) : Dbl → Bool
  | nan => nanSign
  | ninf => true
  | pinf => false
  | nzero => true
  | fin q => decide (q < 0)

/-- Unary minus: flips the sign bit. -/
def neg : Dbl → Dbl
  | nan => nan
  | ninf => pinf
  | pinf => ninf
  | nzero => fin 0
  | fin q => if q = 0 then nzero else fin (-q)

/-- IEEE addition with exact finite sums. -/
def add : Dbl → Dbl → Dbl
  | nan, _ => nan
  | _, nan => nan
  | pinf, ninf => nan
  | ninf, pinf => nan
  | pinf, _ => pinf
  | _, pinf => pinf
  | ninf, _ => ninf
  | _, ninf => ninf
  | nzero, nzero => nzero
  | nzero, fin q => fin q
  | fin q, nzero => fin q
  | fin a, fin b => fin (a + b)

/-- IEEE subtraction: `x - y` is `x + (-y)`. -/
def sub (x y : Dbl) : Dbl := add x (neg y)

/-- IEEE multiplication with exact finite products; the sign of a zero product is the
exclusive or of the operands' signs. -/
def mul (x y : Dbl) : Dbl :=
  if x.isNaN || y.isNaN then nan
  else if (x.isInf && y.isZero) || (x.isZero && y.isInf) then nan
  else if x.isInf || y.isInf then
    (if x.signbit false != y.signbit false then ninf else pinf)
  else if x.val * y.val = 0 then
    (if x.signbit false != y.signbit false then nzero else fin 0)
  else fin (x.val * y.val)

/-- IEEE division with exact finite quotients. -/
def div (x y : Dbl) : Dbl :=
  if x.isNaN || y.isNaN then nan
  else if (x.isInf && y.isInf) || (x.isZero && y.isZero) then nan
  else if x.isInf || y.isZero then
    (if x.signbit false != y.signbit false then ninf else pinf)
  else if y.isInf || x.isZero then
    (if x.signbit false != y.signbit false then nzero else fin 0)
  else fin (x.val / y.val)

/-- The comparison `x < y`: false as soon as one side is NaN; the two zeros are equal. -/
def lt : Dbl → Dbl → Bool
  | nan, _ => false
  | _, nan => false
  | ninf, ninf => false
  | ninf, _ => true
  | _, ninf => false
  | pinf, _ => false
  | _, pinf => true
  | x, y => decide (x.val < y.val)

/-- The comparison `x <= y`: false as soon as one side is NaN. -/
def le : Dbl → Dbl → Bool
  | nan, _ => false
  | _, nan => false
  | ninf, _ => true
  | _, ninf => false
  | _, pinf => true
  | pinf, _ => false
  | x, y => decide (x.val ≤ y.val)

/-- Reads `std::max(a, b)`, which is `(a < b) ? b : a`. -/
def max (a b : Dbl) : Dbl := if lt a b then b else a

/-- Reads `std::min(a, b)`, which is `(b < a) ? b : a`. -/
def min (a b : Dbl) : Dbl := if lt b a then b else a

/-- Reads `std::copysign(mag, sgn)` for a finite or infinite magnitude: the magnitude
with the sign bit of `sgn`. -/
def copysign (nanSign : Bool) (mag sgn : Dbl) : Dbl :=
  if mag.signbit nanSign = sgn.signbit nanSign then mag else neg mag

end Dbl


/-- The exact value of the binary64 constant `M_PI`. -/
def M_PI : ℚ := 884279719003555 / 281474976710656

/-- Modelled from the spec: `rclcpp::Duration`, a signed count of nanoseconds (the class
is declared outside the embedded files). -/
structure Duration where
  nanoseconds : Int
deriving DecidableEq

/-- Reads `Duration::seconds()`: the nanosecond count as seconds, always finite. -/
def Duration.seconds (dt : Duration) : Dbl := Dbl.fin ((dt.nanoseconds : ℚ) / 1000000000)

/-- Modelled from the spec: `JointLimits`, the hard envelope with one presence flag per
limit (the struct is declared in `joint_limits.hpp`, outside the embedded files). -/
structure JointLimits where
  has_position_limits : Bool
  min_position : Dbl
  max_position : Dbl
  has_velocity_limits : Bool
  max_velocity : Dbl
  has_acceleration_limits : Bool
  max_acceleration : Dbl
  has_deceleration_limits : Bool
  max_deceleration : Dbl
  has_jerk_limits : Bool
  max_jerk : Dbl
  has_effort_limits : Bool
  max_effort : Dbl
deriving DecidableEq

/-- Modelled from the spec: `SoftJointLimits`, the soft position envelope and the two
gains (declared in `joint_limits.hpp`, outside the embedded files). -/
structure SoftJointLimits where
  min_position : Dbl
  max_position : Dbl
  k_position : Dbl
  k_velocity : Dbl
deriving DecidableEq

/-- Modelled from the spec: `JointControlInterfacesData`, a command or a measurement:
five optional scalars and the joint name. -/
structure JointControlInterfacesData where
  joint_name : String
  position : Option Dbl
  velocity : Option Dbl
  effort : Option Dbl
  acceleration : Option Dbl
  jerk : Option Dbl
deriving DecidableEq

/-- Modelled from the spec: a sample has data as soon as one of its five scalars is
present. -/
def JointControlInterfacesData.has_data (d : JointControlInterfacesData) : Bool :=
  d.position.isSome || d.velocity.isSome || d.effort.isSome || d.acceleration.isSome ||
    d.jerk.isSome

/-- The pair `{lower_limit, upper_limit}` a solver helper returns. -/
structure Limits where
  lower_limit : Dbl
  upper_limit : Dbl
deriving DecidableEq

/-- What `on_enforce` takes from outside the embedded files: the four solver helpers
(`joint_limits_helpers`), the two soft-limit predicates and the default-constructed
soft limits (`joint_soft_limiter.hpp`, `joint_limits.hpp`), the tolerance constant, and
two platform choices: the value `std::clamp` yields outside its precondition and the
sign bit of a NaN. -/
structure Env where
  compute_position_limits :
    String → JointLimits → Option Dbl → Option Dbl → Option Dbl → Dbl → Limits
  compute_velocity_limits :
    String → JointLimits → Dbl → Option Dbl → Option Dbl → Dbl → Limits
  compute_effort_limits : JointLimits → Option Dbl → Option Dbl → Dbl → Limits
  compute_acceleration_limits : JointLimits → Dbl → Option Dbl → Limits
  has_soft_limits : SoftJointLimits → Bool
  has_soft_position_limits : SoftJointLimits → Bool
  default_soft_joint_limits : SoftJointLimits
  POSITION_BOUNDS_TOLERANCE : Dbl
  clamp_undefined : Dbl → Dbl → Dbl → Dbl
  nan_signbit : Bool

/-- Reads `std::clamp(v, lo, hi)`: `(v < lo) ? lo : (hi < v) ? hi : v` under the
precondition `!(hi < lo)`, and the platform's value outside it. -/
def clamp (E : Env) (v lo hi : Dbl) : Dbl :=
  if Dbl.lt hi lo then E.clamp_undefined v lo hi
  else if Dbl.lt v lo then lo
  else if Dbl.lt hi v then hi
  else v

/-- Modelled from the spec: `is_limited(value, min, max)`, true when the value is
outside `[min, max]` (the helper is defined in `joint_limits_helpers`). -/
def is_limited (value lo hi : Dbl) : Bool := Dbl.lt value lo || Dbl.lt hi value

/-- Modelled from the spec: `update_prev_command(desired, prev_command)` copies the
quantities `desired` carries into `prev_command`. -/
def update_prev_command (desired prev_command : JointControlInterfacesData) :
    JointControlInterfacesData :=
  { joint_name := prev_command.joint_name
    position := if desired.position.isSome then desired.position else prev_command.position
    velocity := if desired.velocity.isSome then desired.velocity else prev_command.velocity
    effort := if desired.effort.isSome then desired.effort else prev_command.effort
    acceleration :=
      if desired.acceleration.isSome then desired.acceleration else prev_command.acceleration
    jerk := if desired.jerk.isSome then desired.jerk else prev_command.jerk }

/-- The fields of `JointSoftLimiter` that `on_enforce` reads and writes. -/
structure JointSoftLimiter where
  joint_names : List String
  joint_limits : List JointLimits
  soft_joint_limits : List SoftJointLimits
  prev_command : JointControlInterfacesData

/-- Lines 45-76: on the first call `prev_command_` is seeded, quantity by quantity, from
`actual` when it carries the quantity and from `desired` otherwise. -/
def seed_prev_command (prev actual desired : JointControlInterfacesData) :
    JointControlInterfacesData :=
  if !prev.has_data then
    { joint_name :=
        if actual.has_data then actual.joint_name
        else if desired.has_data then desired.joint_name
        else prev.joint_name
      position :=
        if desired.position.isSome then
          (if actual.position.isSome then actual.position else desired.position)
        else prev.position
      velocity :=
        if desired.velocity.isSome then
          (if actual.velocity.isSome then actual.velocity else desired.velocity)
        else prev.velocity
      effort :=
        if desired.effort.isSome then
          (if actual.effort.isSome then actual.effort else desired.effort)
        else prev.effort
      acceleration :=
        if desired.acceleration.isSome then
          (if actual.acceleration.isSome then actual.acceleration else desired.acceleration)
        else prev.acceleration
      jerk :=
        if desired.jerk.isSome then
          (if actual.jerk.isSome then actual.jerk else desired.jerk)
        else prev.jerk }
  else prev

/-- Lines 80-85: the measured position, else the finite previous command, else +inf. -/
def act_position (prev actual : JointControlInterfacesData) : Dbl :=
  match actual.position with
  | some p => p
  | none =>
    match prev.position with
    | some q => if q.isfinite then q else Dbl.pinf
    | none => Dbl.pinf

/-- Lines 86-89: the finite previous commanded position, else the measured one, else
+inf. -/
def prev_command_position (prev actual : JointControlInterfacesData) : Dbl :=
  match prev.position with
  | some q =>
    if q.isfinite then q
    else (match actual.position with
      | some p => p
      | none => Dbl.pinf)
  | none =>
    match actual.position with
    | some p => p
    | none => Dbl.pinf

/-- Line 125: `1.0 * (M_PI / 180.0)`, one degree per second. -/
def soft_limit_reach_velocity : Dbl :=
  Dbl.mul (Dbl.fin 1) (Dbl.div (Dbl.fin M_PI) (Dbl.fin 180))

/-- Lines 78-130: the soft velocity envelope `(soft_min_vel, soft_max_vel)`. -/
def soft_velocity_envelope (E : Env) (hard : JointLimits) (soft : SoftJointLimits)
    (prev actual : JointControlInterfacesData) : Dbl × Dbl :=
  let act_pos := act_position prev actual
  let prev_pos := prev_command_position prev actual
  if hard.has_velocity_limits then
    if hard.has_position_limits && E.has_soft_limits soft && prev_pos.isfinite then
      let soft_min_vel :=
        clamp E (Dbl.mul (Dbl.neg soft.k_position) (Dbl.sub prev_pos soft.min_position))
          (Dbl.neg hard.max_velocity) hard.max_velocity
      let soft_max_vel :=
        clamp E (Dbl.mul (Dbl.neg soft.k_position) (Dbl.sub prev_pos soft.max_position))
          (Dbl.neg hard.max_velocity) hard.max_velocity
      if act_pos.isfinite &&
          (Dbl.lt act_pos (Dbl.sub hard.min_position E.POSITION_BOUNDS_TOLERANCE) ||
            Dbl.lt (Dbl.add hard.max_position E.POSITION_BOUNDS_TOLERANCE) act_pos) then
        (Dbl.fin 0, Dbl.fin 0)
      else if Dbl.lt act_pos soft.min_position || Dbl.lt soft.max_position act_pos then
        (Dbl.copysign E.nan_signbit soft_limit_reach_velocity soft_min_vel,
          Dbl.copysign E.nan_signbit soft_limit_reach_velocity soft_max_vel)
      else (soft_min_vel, soft_max_vel)
    else (Dbl.neg hard.max_velocity, hard.max_velocity)
  else (Dbl.ninf, Dbl.pinf)

/-- Lines 134-153: the interval `(pos_low, pos_high)` the desired position is clamped
to; `sv` is the soft velocity envelope. -/
def position_bounds (E : Env) (joint_name : String) (hard : JointLimits)
    (soft : SoftJointLimits) (prev actual : JointControlInterfacesData) (dt_seconds : Dbl)
    (sv : Dbl × Dbl) : Dbl × Dbl :=
  let position_limits :=
    E.compute_position_limits joint_name hard actual.velocity actual.position prev.position
      dt_seconds
  let prev_pos := prev_command_position prev actual
  let pos_low := if E.has_soft_position_limits soft then soft.min_position else Dbl.ninf
  let pos_high := if E.has_soft_position_limits soft then soft.max_position else Dbl.pinf
  let pos_low1 :=
    if hard.has_velocity_limits then
      clamp E (Dbl.add prev_pos (Dbl.mul sv.1 dt_seconds)) pos_low pos_high
    else pos_low
  let pos_high1 :=
    if hard.has_velocity_limits then
      clamp E (Dbl.add prev_pos (Dbl.mul sv.2 dt_seconds)) pos_low1 pos_high
    else pos_high
  (Dbl.max pos_low1 position_limits.lower_limit,
    Dbl.min pos_high1 position_limits.upper_limit)

/-- Lines 161-174: the interval `(soft_min_vel, soft_max_vel)` the desired velocity
`v_des` is clamped to; `sv` is the soft velocity envelope of lines 78-130. -/
def velocity_bounds (E : Env) (joint_name : String) (hard : JointLimits)
    (prev actual : JointControlInterfacesData) (v_des dt_seconds : Dbl) (sv : Dbl × Dbl) :
    Dbl × Dbl :=
  let velocity_limits :=
    E.compute_velocity_limits joint_name hard v_des actual.position prev.velocity dt_seconds
  let sv1 :=
    match actual.velocity with
    | some act_vel =>
      if hard.has_acceleration_limits then
        (Dbl.max (Dbl.sub act_vel (Dbl.mul hard.max_acceleration dt_seconds)) sv.1,
          Dbl.min (Dbl.add act_vel (Dbl.mul hard.max_acceleration dt_seconds)) sv.2)
      else sv
    | none => sv
  (Dbl.max sv1.1 velocity_limits.lower_limit, Dbl.min sv1.2 velocity_limits.upper_limit)

/-- Lines 183-203: the interval `(soft_min_eff, soft_max_eff)` the desired effort is
clamped to; `sv` holds `soft_min_vel` and `soft_max_vel` as the velocity step left
them. -/
def effort_bounds (E : Env) (hard : JointLimits) (soft : SoftJointLimits)
    (actual : JointControlInterfacesData) (dt_seconds : Dbl) (sv : Dbl × Dbl) : Dbl × Dbl :=
  let effort_limits :=
    E.compute_effort_limits hard actual.position actual.velocity dt_seconds
  match actual.velocity with
  | some act_vel =>
    if hard.has_effort_limits && soft.k_velocity.isfinite then
      let soft_min_eff :=
        clamp E (Dbl.mul (Dbl.neg soft.k_velocity) (Dbl.sub act_vel sv.1))
          (Dbl.neg hard.max_effort) hard.max_effort
      let soft_max_eff :=
        clamp E (Dbl.mul (Dbl.neg soft.k_velocity) (Dbl.sub act_vel sv.2))
          (Dbl.neg hard.max_effort) hard.max_effort
      (Dbl.max soft_min_eff effort_limits.lower_limit,
        Dbl.min soft_max_eff effort_limits.upper_limit)
    else (effort_limits.lower_limit, effort_limits.upper_limit)
  | none => (effort_limits.lower_limit, effort_limits.upper_limit)

/-- The soft limits `on_enforce` works with (lines 37-41): the first entry of
`soft_joint_limits_`, or a default-constructed value when the vector is empty. -/
def soft_limits_of (E : Env) (self : JointSoftLimiter) : SoftJointLimits :=
  match self.soft_joint_limits with
  | [] => E.default_soft_joint_limits
  | s :: _ => s

/-- The values of `soft_min_vel` and `soft_max_vel` once the velocity step (lines
159-179) is over: the velocity step overwrites them only when `desired` carries a
velocity. -/
def velocity_interval (E : Env) (joint_name : String) (hard : JointLimits)
    (soft : SoftJointLimits) (prev actual desired : JointControlInterfacesData)
    (dt_seconds : Dbl) : Dbl × Dbl :=
  match desired.velocity with
  | some v =>
    velocity_bounds E joint_name hard prev actual v dt_seconds
      (soft_velocity_envelope E hard soft prev actual)
  | none => soft_velocity_envelope E hard soft prev actual

/-- The interval the desired position is clamped to (lines 134-153). -/
def position_interval (E : Env) (joint_name : String) (hard : JointLimits)
    (soft : SoftJointLimits) (prev actual : JointControlInterfacesData) (dt_seconds : Dbl) :
    Dbl × Dbl :=
  position_bounds E joint_name hard soft prev actual dt_seconds
    (soft_velocity_envelope E hard soft prev actual)

/-- The interval the desired effort is clamped to (lines 183-203). -/
def effort_interval (E : Env) (joint_name : String) (hard : JointLimits)
    (soft : SoftJointLimits) (prev actual desired : JointControlInterfacesData)
    (dt_seconds : Dbl) : Dbl × Dbl :=
  effort_bounds E hard soft actual dt_seconds
    (velocity_interval E joint_name hard soft prev actual desired dt_seconds)

/-- The interval the desired acceleration `a` is clamped to (lines 212-218). -/
def acceleration_interval (E : Env) (hard : JointLimits)
    (actual : JointControlInterfacesData) (a : Dbl) : Dbl × Dbl :=
  ((E.compute_acceleration_limits hard a actual.velocity).lower_limit,
    (E.compute_acceleration_limits hard a actual.velocity).upper_limit)

/-- The interval the desired jerk is clamped to (lines 223-226). -/
def jerk_interval (hard : JointLimits) : Dbl × Dbl := (Dbl.neg hard.max_jerk, hard.max_jerk)

/-- One clamping step on an optional quantity: `is_limited` on the value that comes in. -/
def limited (q : Option Dbl) (iv : Dbl × Dbl) : Bool :=
  match q with
  | some v => is_limited v iv.1 iv.2
  | none => false

/-- One clamping step on an optional quantity: the value `std::clamp` writes back. -/
def clamped (E : Env) (q : Option Dbl) (iv : Dbl × Dbl) : Option Dbl :=
  match q with
  | some v => some (clamp E v iv.1 iv.2)
  | none => none

/-- Lines 132-227: `desired` as the five clamping steps leave it; `prev` is
`prev_command_` after seeding. -/
def clamp_steps (E : Env) (joint_name : String) (hard : JointLimits) (soft : SoftJointLimits)
    (prev actual desired : JointControlInterfacesData) (dt_seconds : Dbl) :
    JointControlInterfacesData :=
  { joint_name := desired.joint_name
    position :=
      clamped E desired.position
        (position_interval E joint_name hard soft prev actual dt_seconds)
    velocity :=
      clamped E desired.velocity
        (velocity_interval E joint_name hard soft prev actual desired dt_seconds)
    effort :=
      clamped E desired.effort
        (effort_interval E joint_name hard soft prev actual desired dt_seconds)
    acceleration :=
      match desired.acceleration with
      | some a => some (clamp E a (acceleration_interval E hard actual a).1
          (acceleration_interval E hard actual a).2)
      | none => none
    jerk := clamped E desired.jerk (jerk_interval hard) }

/-- Lines 132-227: the value of `limits_enforced` after the five clamping steps. -/
def clamp_flag (E : Env) (joint_name : String) (hard : JointLimits) (soft : SoftJointLimits)
    (prev actual desired : JointControlInterfacesData) (dt_seconds : Dbl) : Bool :=
  let limits_enforced :=
    limited desired.position (position_interval E joint_name hard soft prev actual dt_seconds)
  let limits_enforced :=
    limited desired.velocity
      (velocity_interval E joint_name hard soft prev actual desired dt_seconds) ||
      limits_enforced
  let limits_enforced :=
    limited desired.effort
      (effort_interval E joint_name hard soft prev actual desired dt_seconds) ||
      limits_enforced
  let limits_enforced :=
    (match desired.acceleration with
      | some a => is_limited a (acceleration_interval E hard actual a).1
          (acceleration_interval E hard actual a).2
      | none => false) || limits_enforced
  limited desired.jerk (jerk_interval hard) || limits_enforced

/-- Tells whether an optional quantity is present and not finite. -/
def non_finite (q : Option Dbl) : Bool :=
  match q with
  | some v => !v.isfinite
  | none => false

/-- Lines 229-248: tells whether one of the four sanitation branches fires on the
clamped sample `d`. -/
def sanitation_fires (actual d : JointControlInterfacesData) : Bool :=
  (non_finite d.position && actual.position.isSome) || non_finite d.velocity ||
    non_finite d.acceleration || non_finite d.jerk

/-- Lines 229-248: a non-finite position is replaced by the measured one when there is
one; a non-finite velocity, acceleration or jerk by `0.0`.  The effort has no branch. -/
def sanitize (actual d : JointControlInterfacesData) : JointControlInterfacesData :=
  { joint_name := d.joint_name
    position := if non_finite d.position && actual.position.isSome then actual.position
      else d.position
    velocity := if non_finite d.velocity then some (Dbl.fin 0) else d.velocity
    effort := d.effort
    acceleration := if non_finite d.acceleration then some (Dbl.fin 0) else d.acceleration
    jerk := if non_finite d.jerk then some (Dbl.fin 0) else d.jerk }

/-- What a call of `on_enforce` leaves behind: the returned flag, the `desired` sample
(an in-out argument) and the limiter with its `prev_command_`. -/
structure EnforceResult where
  limits_enforced : Bool
  desired : JointControlInterfacesData
  limiter : JointSoftLimiter

/-- Lines 36-253 of `on_enforce`, for the joint `(joint_name, hard, soft)` read at index 0
and a positive `dt_seconds`. -/
def enforce_joint (E : Env) (self : JointSoftLimiter) (joint_name : String)
    (hard : JointLimits) (soft : SoftJointLimits)
    (actual desired : JointControlInterfacesData) (dt_seconds : Dbl) : EnforceResult :=
  let prev := seed_prev_command self.prev_command actual desired
  let d := clamp_steps E joint_name hard soft prev actual desired dt_seconds
  let limits_enforced :=
    clamp_flag E joint_name hard soft prev actual desired dt_seconds
  let limits_enforced := sanitation_fires actual d || limits_enforced
  let d := sanitize actual d
  { limits_enforced := limits_enforced
    desired := d
    limiter := { self with prev_command := update_prev_command d prev } }

/-- `JointSoftLimiter::on_enforce(actual, desired, dt)`.  A non-positive `dt` returns
`false` before anything is read or written; otherwise the joint at index 0 is enforced.
Reading index 0 of an empty `joint_limits_` or `joint_names_` has no defined result
(`none`). -/
def on_enforce (E : Env) (self : JointSoftLimiter)
    (actual desired : JointControlInterfacesData) (dt : Duration) : Option EnforceResult :=
  if Dbl.le dt.seconds (Dbl.fin 0) then
    some { limits_enforced := false, desired := desired, limiter := self }
  else
    match self.joint_limits, self.joint_names with
    | hard :: _, joint_name :: _ =>
      some (enforce_joint E self joint_name hard (soft_limits_of E self) actual desired
        dt.seconds)
    | _, _ => none

/-! ## The limiter frontend (`JointLimiterInterface`) -/

/-- The fields of `JointLimiterInterface` with the state `σ` of the implementing
limiter.  The two interface pointers are kept as "is set" flags, the realtime buffer
`updated_limits_` as the vector written last (`writeFromNonRT`) which `readFromRT`
returns, and `on_init_calls` counts the invocations of the `on_init` hook. -/
structure JointLimiterInterface (σ : Type) where
  number_of_joints : Nat
  joint_names : List String
  joint_limits : List JointLimits
  soft_joint_limits : List SoftJointLimits
  node_param_itf : Bool
  node_logging_itf : Bool
  updated_limits : List JointLimits
  parameter_callback : Bool
  errors_logged : Nat
  on_init_calls : Nat
  impl : σ

/-- The pure virtual hooks an implementation supplies; a hook reads the whole limiter
and writes the implementation's own state. -/
structure Hooks (σ S : Type) where
  on_init : JointLimiterInterface σ → Bool × σ
  on_enforce : JointLimiterInterface σ → S → S → Duration → Bool × S × σ

/-- What the parameter-based paths take from `joint_limits_rosparam.hpp`, over a type `P`
of parameters: `declare_parameters`, `get_joint_limits` (which fills the limits it is
handed) and `check_for_limits_update` (which returns whether the joint's limits changed
together with the updated limits), and the default-constructed `JointLimits`. -/
structure ParamSource (P : Type) where
  declare_parameters : String → Bool
  get_joint_limits : String → JointLimits → Bool × JointLimits
  check_for_limits_update : String → List P → JointLimits → Bool × JointLimits
  default_joint_limits : JointLimits

/-- Calls the `on_init` hook once and stores what it leaves. -/
def call_on_init {σ S : Type} (H : Hooks σ S) (self : JointLimiterInterface σ) :
    Bool × JointLimiterInterface σ :=
  ((H.on_init self).1,
    { self with impl := (H.on_init self).2, on_init_calls := self.on_init_calls + 1 })

/-- Lines 144-150: the assignments the `init` overload with limits starts with; the
limits are also published to the realtime buffer. -/
def store_limits {σ : Type} (self : JointLimiterInterface σ)
    (joint_names : List String) (joint_limits : List JointLimits)
    (soft_joint_limits : List SoftJointLimits) (param_itf logging_itf : Bool) :
    JointLimiterInterface σ :=
  { self with
    number_of_joints := joint_names.length
    joint_names := joint_names
    joint_limits := joint_limits
    soft_joint_limits := soft_joint_limits
    node_param_itf := param_itf
    node_logging_itf := logging_itf
    updated_limits := joint_limits }

/-- Lines 137-160: the `init` overload that takes the limits directly.  The hook is
reached only through the right operand of `&&`. -/
def init_with_limits {σ S : Type} (H : Hooks σ S) (self : JointLimiterInterface σ)
    (joint_names : List String) (joint_limits : List JointLimits)
    (soft_joint_limits : List SoftJointLimits) (param_itf logging_itf : Bool) :
    Bool × JointLimiterInterface σ :=
  let self1 := store_limits self joint_names joint_limits soft_joint_limits param_itf
    logging_itf
  let self2 : JointLimiterInterface σ :=
    if self1.number_of_joints != self1.joint_limits.length && self1.node_logging_itf then
      { self1 with errors_logged := self1.errors_logged + 1 }
    else self1
  if self2.number_of_joints == self2.joint_limits.length then call_on_init H self2
  else (false, self2)

/-- Reads `joint_limits_.resize(n)`: truncates, or pads with default-constructed limits. -/
def resize_limits (dflt : JointLimits) (n : Nat) (l : List JointLimits) : List JointLimits :=
  l.take n ++ List.replicate (n - l.length) dflt

/-- Lines 73-94: the loop that declares and reads each joint's parameters; it stops at
the first failure.  Returns `result` and the limits read so far. -/
def read_parameters {P : Type} (F : ParamSource P) :
    List String → List JointLimits → Bool × List JointLimits × Nat
  | name :: names, lim :: lims =>
    if !F.declare_parameters name then (false, lim :: lims, 1)
    else if !(F.get_joint_limits name lim).1 then
      (false, (F.get_joint_limits name lim).2 :: lims, 1)
    else
      let rest := read_parameters F names lims
      (rest.1, (F.get_joint_limits name lim).2 :: rest.2.1, rest.2.2)
  | _, lims => (true, lims, 0)

/-- Lines 54-132: the parameter-based `init`. -/
def init {σ S P : Type} (H : Hooks σ S) (F : ParamSource P) (self : JointLimiterInterface σ)
    (joint_names : List String) (param_itf logging_itf : Bool) :
    Bool × JointLimiterInterface σ :=
  let self1 : JointLimiterInterface σ :=
    { self with
      number_of_joints := joint_names.length
      joint_names := joint_names
      joint_limits := resize_limits F.default_joint_limits joint_names.length self.joint_limits
      node_param_itf := param_itf
      node_logging_itf := logging_itf }
  let read := read_parameters F joint_names self1.joint_limits
  let self2 : JointLimiterInterface σ :=
    if self1.node_param_itf then
      { self1 with
        joint_limits := read.2.1
        updated_limits := read.2.1
        errors_logged := self1.errors_logged + read.2.2
        parameter_callback := true }
    else self1
  let result := if self1.node_param_itf then read.1 else true
  if result then call_on_init H self2 else (false, self2)

/-- Lines 105-109: `changed |= check_for_limits_update(joint_names_[i], parameters, ...,
updated_joint_limits[i])` for every joint; every call is made, whatever `changed` is. -/
def check_all_joints {P : Type} (F : ParamSource P) (parameters : List P) :
    List String → List JointLimits → Bool × List JointLimits
  | name :: names, lim :: lims =>
    ((F.check_for_limits_update name parameters lim).1 ||
        (check_all_joints F parameters names lims).1,
      (F.check_for_limits_update name parameters lim).2 ::
        (check_all_joints F parameters names lims).2)
  | _, lims => (false, lims)

/-- Lines 97-118: the parameter-event callback.  It starts from a copy of the active
`joint_limits_` and, when a joint changed, publishes the copy to the buffer.  The
returned `SetParametersResult` is always successful. -/
def on_parameter_event_callback {σ P : Type} (F : ParamSource P)
    (self : JointLimiterInterface σ) (parameters : List P) : JointLimiterInterface σ :=
  let updated := check_all_joints F parameters self.joint_names self.joint_limits
  if updated.1 then { self with updated_limits := updated.2 } else self

/-- Line 207: `joint_limits_ = *(updated_limits_.readFromRT())`. -/
def read_updated_limits {σ : Type} (self : JointLimiterInterface σ) :
    JointLimiterInterface σ :=
  { self with joint_limits := self.updated_limits }

/-- Lines 203-209: `enforce` copies the published limits into the active slot and hands
over to the `on_enforce` hook. -/
def enforce {σ S : Type} (H : Hooks σ S) (self : JointLimiterInterface σ)
    (current desired : S) (dt : Duration) : Bool × S × JointLimiterInterface σ :=
  let self1 := read_updated_limits self
  ((H.on_enforce self1 current desired dt).1, (H.on_enforce self1 current desired dt).2.1,
    { self1 with impl := (H.on_enforce self1 current desired dt).2.2 })

/-- Runs a sequence of parameter-event callbacks, oldest first, with no `enforce` in
between. -/
def run_callbacks {σ P : Type} (F : ParamSource P) (self : JointLimiterInterface σ) :
    List (List P) → JointLimiterInterface σ
  | [] => self
  | parameters :: rest => run_callbacks F (on_parameter_event_callback F self parameters) rest

/-- The limits one expects after a sequence of callbacks: every callback's update applied
in order to the limits that were active before the first one. -/
def apply_updates {P : Type} (F : ParamSource P) (joint_names : List String)
    (limits : List JointLimits) : List (List P) → List JointLimits
  | [] => limits
  | parameters :: rest =>
    apply_updates F joint_names (check_all_joints F parameters joint_names limits).2 rest

/-! ## A concrete environment for the scenarios -/

/-- Modelled from the spec: `compute_position_limits` (section 4.1).  The base interval is
the hard position interval when present, else the whole line; with a velocity limit it
is intersected with `p_ref + [-max_velocity, +max_velocity] * dt`, `p_ref` being the
previous commanded position when finite and the measured one otherwise; an empty
intersection collapses to its midpoint. -/
def scenario_position_limits (_joint_name : String) (hard : JointLimits)
    (_act_vel act_pos prev_command_pos : Option Dbl) (dt : Dbl) : Limits :=
  let lower := if hard.has_position_limits then hard.min_position else Dbl.ninf
  let upper := if hard.has_position_limits then hard.max_position else Dbl.pinf
  if hard.has_velocity_limits then
    let p_ref :=
      match prev_command_pos with
      | some q => if q.isfinite then q else act_pos.getD Dbl.nan
      | none => act_pos.getD Dbl.nan
    let lower1 := Dbl.max lower (Dbl.sub p_ref (Dbl.mul hard.max_velocity dt))
    let upper1 := Dbl.min upper (Dbl.add p_ref (Dbl.mul hard.max_velocity dt))
    if Dbl.lt upper1 lower1 then
      { lower_limit := Dbl.div (Dbl.add lower1 upper1) (Dbl.fin 2)
        upper_limit := Dbl.div (Dbl.add lower1 upper1) (Dbl.fin 2) }
    else { lower_limit := lower1, upper_limit := upper1 }
  else { lower_limit := lower, upper_limit := upper }

/-- Modelled from the spec: `compute_velocity_limits` (section 4.1), without the
stop-distance cap of joints with position limits (it takes a square root).  The base
interval is `[-max_velocity, +max_velocity]` when present; with acceleration limits and
a finite previous commanded velocity it is intersected with
`v_prev + [-max_acceleration, +max_acceleration] * dt`. -/
def scenario_velocity_limits (_joint_name : String) (hard : JointLimits) (_v_desired : Dbl)
    (_act_pos prev_command_vel : Option Dbl) (dt : Dbl) : Limits :=
  let lower := if hard.has_velocity_limits then Dbl.neg hard.max_velocity else Dbl.ninf
  let upper := if hard.has_velocity_limits then hard.max_velocity else Dbl.pinf
  match prev_command_vel with
  | some v_prev =>
    if hard.has_acceleration_limits && v_prev.isfinite then
      { lower_limit := Dbl.max lower (Dbl.sub v_prev (Dbl.mul hard.max_acceleration dt))
        upper_limit := Dbl.min upper (Dbl.add v_prev (Dbl.mul hard.max_acceleration dt)) }
    else { lower_limit := lower, upper_limit := upper }
  | none => { lower_limit := lower, upper_limit := upper }

/-- Modelled from the spec: `compute_effort_limits` (section 4.1), its base interval
`[-max_effort, +max_effort]` when present, else the whole line. -/
def scenario_effort_limits (hard : JointLimits) (_act_pos _act_vel : Option Dbl)
    (_dt : Dbl) : Limits :=
  if hard.has_effort_limits then
    { lower_limit := Dbl.neg hard.max_effort, upper_limit := hard.max_effort }
  else { lower_limit := Dbl.ninf, upper_limit := Dbl.pinf }

/-- Modelled from the spec: `compute_acceleration_limits` (section 4.1) for a joint
without separate deceleration limits: the whole line when acceleration limits are
absent, else `[-max_acceleration, +max_acceleration]`. -/
def scenario_acceleration_limits (hard : JointLimits) (_a_desired : Dbl)
    (_act_vel : Option Dbl) : Limits :=
  if hard.has_acceleration_limits then
    { lower_limit := Dbl.neg hard.max_acceleration, upper_limit := hard.max_acceleration }
  else { lower_limit := Dbl.ninf, upper_limit := Dbl.pinf }

/-- Modelled from the spec: soft position limits are present when
`min_position < max_position` (section 3). -/
def scenario_has_soft_position_limits (soft : SoftJointLimits) : Bool :=
  Dbl.lt soft.min_position soft.max_position

/-- Modelled from the spec: soft limits are present when the soft position limits are
and the gain `k_position` is finite and positive (section 3). -/
def scenario_has_soft_limits (soft : SoftJointLimits) : Bool :=
  scenario_has_soft_position_limits soft && soft.k_position.isfinite &&
    Dbl.lt (Dbl.fin 0) soft.k_position

/-- The environment of the scenarios: the helpers as the spec describes them, a
tolerance of one thousandth of a radian, soft limits that default to NaN, and the
choices of the GNU C++ library (`std::min(std::max(v, lo), hi)` for `std::clamp` outside
its precondition). -/
def scenario_env : Env :=
  { compute_position_limits := scenario_position_limits
    compute_velocity_limits := scenario_velocity_limits
    compute_effort_limits := scenario_effort_limits
    compute_acceleration_limits := scenario_acceleration_limits
    has_soft_limits := scenario_has_soft_limits
    has_soft_position_limits := scenario_has_soft_position_limits
    default_soft_joint_limits :=
      { min_position := Dbl.nan, max_position := Dbl.nan, k_position := Dbl.nan,
        k_velocity := Dbl.nan }
    POSITION_BOUNDS_TOLERANCE := Dbl.fin (1 / 1000)
    clamp_undefined := fun v lo hi => Dbl.min (Dbl.max v lo) hi
    nan_signbit := false }

/-- Hard limits with every flag off and every value NaN, as default-constructed. -/
def no_limits : JointLimits :=
  { has_position_limits := false, min_position := Dbl.nan, max_position := Dbl.nan
    has_velocity_limits := false, max_velocity := Dbl.nan
    has_acceleration_limits := false, max_acceleration := Dbl.nan
    has_deceleration_limits := false, max_deceleration := Dbl.nan
    has_jerk_limits := false, max_jerk := Dbl.nan
    has_effort_limits := false, max_effort := Dbl.nan }

/-- A sample that carries nothing. -/
def empty_sample : JointControlInterfacesData :=
  { joint_name := "joint1", position := none, velocity := none, effort := none,
    acceleration := none, jerk := none }

/-- A limiter for one joint `joint1` with the given hard limits, no soft limits and an
empty `prev_command_`. -/
def limiter_of (hard : JointLimits) : JointSoftLimiter :=
  { joint_names := ["joint1"], joint_limits := [hard], soft_joint_limits := [],
    prev_command := empty_sample }

/-- Hard position limits `[-1, +1]` and nothing else (scenario 1 of section 8). -/
def position_limits_only : JointLimits :=
  { no_limits with
    has_position_limits := true, min_position := Dbl.fin (-1), max_position := Dbl.fin 1 }

/-- Tells whether a clamping step meets the precondition of `std::clamp`, `!(hi < lo)`;
a step on an absent quantity makes no call. -/
def clamp_defined (q : Option Dbl) (iv : Dbl × Dbl) : Bool :=
  match q with
  | some _ => !Dbl.lt iv.2 iv.1
  | none => true

/-- Tells whether every `std::clamp` call lines 156-226 make on a quantity of `desired`
meets the precondition of `std::clamp`. -/
def clamp_calls_defined (E : Env) (joint_name : String) (hard : JointLimits)
    (soft : SoftJointLimits) (prev actual desired : JointControlInterfacesData)
    (dt_seconds : Dbl) : Bool :=
  clamp_defined desired.position
      (position_interval E joint_name hard soft prev actual dt_seconds) &&
    clamp_defined desired.velocity
      (velocity_interval E joint_name hard soft prev actual desired dt_seconds) &&
    clamp_defined desired.effort
      (effort_interval E joint_name hard soft prev actual desired dt_seconds) &&
    (match desired.acceleration with
      | some a => clamp_defined (some a) (acceleration_interval E hard actual a)
      | none => true) &&
    clamp_defined desired.jerk (jerk_interval hard)

/-- The platform's `std::clamp` is the comparison chain
`(v < lo) ? lo : (hi < v) ? hi : v` outside the precondition too (as in the LLVM and
Microsoft C++ libraries). -/
def comparison_clamp (E : Env) : Prop :=
  ∀ v lo hi, E.clamp_undefined v lo hi =
    (if Dbl.lt v lo then lo else if Dbl.lt hi v then hi else v)

/-- Tells whether an optional quantity is absent, or finite and inside `[lo, hi]`. -/
def finite_inside (q : Option Dbl) (iv : Dbl × Dbl) : Bool :=
  match q with
  | some v => v.isfinite && Dbl.le iv.1 v && Dbl.le v iv.2
  | none => true

/-- Tells whether every quantity `desired` carries is finite and inside the interval
`on_enforce` computes for it. -/
def inside_every_interval (E : Env) (joint_name : String) (hard : JointLimits)
    (soft : SoftJointLimits) (prev actual desired : JointControlInterfacesData)
    (dt_seconds : Dbl) : Bool :=
  finite_inside desired.position
      (position_interval E joint_name hard soft prev actual dt_seconds) &&
    finite_inside desired.velocity
      (velocity_interval E joint_name hard soft prev actual desired dt_seconds) &&
    finite_inside desired.effort
      (effort_interval E joint_name hard soft prev actual desired dt_seconds) &&
    (match desired.acceleration with
      | some a => finite_inside (some a) (acceleration_interval E hard actual a)
      | none => true) &&
    finite_inside desired.jerk (jerk_interval hard)

/-- Hard limits with every limit active: position `[-1, +1]`, velocity 2, acceleration
10, jerk 100, effort 50. -/
def all_limits : JointLimits :=
  { has_position_limits := true, min_position := Dbl.fin (-1), max_position := Dbl.fin 1
    has_velocity_limits := true, max_velocity := Dbl.fin 2
    has_acceleration_limits := true, max_acceleration := Dbl.fin 10
    has_deceleration_limits := false, max_deceleration := Dbl.nan
    has_jerk_limits := true, max_jerk := Dbl.fin 100
    has_effort_limits := true, max_effort := Dbl.fin 50 }

/-- A sample at rest at the origin that carries all five quantities. -/
def rest_sample : JointControlInterfacesData :=
  { joint_name := "joint1", position := some (Dbl.fin 0), velocity := some (Dbl.fin 0),
    effort := some (Dbl.fin 0), acceleration := some (Dbl.fin 0), jerk := some (Dbl.fin 0) }

/-- Tells whether an optional quantity is absent or lies in `[lo, hi]`. -/
def within (q : Option Dbl) (lo hi : Dbl) : Bool :=
  match q with
  | some v => Dbl.le lo v && Dbl.le v hi
  | none => true

/-- Tells whether an interval handed to `std::clamp` is proper: `lo <= hi` evaluates to
true, so that neither bound is NaN and the precondition of `std::clamp` holds. -/
def proper (iv : Dbl × Dbl) : Bool := Dbl.le iv.1 iv.2

/-- Tells whether the bounds a solver helper returned lie in `[lo, hi]`. -/
def solver_within (l : Limits) (lo hi : Dbl) : Bool :=
  Dbl.le lo l.lower_limit && Dbl.le l.upper_limit hi

/-- Tells whether an optional quantity is absent or not NaN. -/
def not_nan (q : Option Dbl) : Bool :=
  match q with
  | some v => !v.isNaN
  | none => true

/-- Hard limits of the velocity-ramp scenario: velocity 2 and acceleration 10. -/
def velocity_ramp_limits : JointLimits :=
  { no_limits with
    has_velocity_limits := true, max_velocity := Dbl.fin 2
    has_acceleration_limits := true, max_acceleration := Dbl.fin 10 }

/-- Soft limits `[-0.5, +0.5]` with `k_position = 16` and no velocity gain. -/
def cushion_soft_limits : SoftJointLimits :=
  { min_position := Dbl.fin (-1 / 2), max_position := Dbl.fin (1 / 2),
    k_position := Dbl.fin 16, k_velocity := Dbl.nan }

/-- A limiter for `joint1` with every hard limit active (`all_limits`), the soft limits
`cushion_soft_limits`, and a previous commanded position 0.75, between the soft and the
hard upper limit. -/
def cushion_limiter : JointSoftLimiter :=
  { joint_names := ["joint1"], joint_limits := [all_limits],
    soft_joint_limits := [cushion_soft_limits],
    prev_command := { empty_sample with position := some (Dbl.fin (3 / 4)) } }

/-- A measurement at position 0.75 whose velocity is NaN. -/
def nan_velocity_state : JointControlInterfacesData :=
  { joint_name := "joint1", position := some (Dbl.fin (3 / 4)), velocity := some Dbl.nan,
    effort := none, acceleration := none, jerk := none }

/-- A command that carries the velocity 1000 and nothing else. -/
def fast_command : JointControlInterfacesData :=
  { joint_name := "joint1", position := none, velocity := some (Dbl.fin 1000),
    effort := none, acceleration := none, jerk := none }

/-! ## A concrete parameter source for the frontend scenarios -/

/-- Modelled from the spec: two of the per-joint keys of the parameter schema (section
6). -/
inductive LimitKey where
  | max_velocity : LimitKey
  | max_effort : LimitKey
deriving DecidableEq

/-- Modelled from the spec: a changed parameter, its key relative to a joint's prefix
and its value. -/
structure LimitParameter where
  joint : String
  key : LimitKey
  value : Dbl
deriving DecidableEq

/-- Applies one changed parameter to a joint's limits; tells whether the stored value
changed. -/
def set_limit (joint_name : String) (limits : JointLimits) (p : LimitParameter) :
    Bool × JointLimits :=
  if p.joint = joint_name then
    match p.key with
    | LimitKey.max_velocity =>
      (decide (limits.max_velocity ≠ p.value), { limits with max_velocity := p.value })
    | LimitKey.max_effort =>
      (decide (limits.max_effort ≠ p.value), { limits with max_effort := p.value })
  else (false, limits)

/-- Modelled from the spec: `check_for_limits_update(joint_name, batch, limits)` returns
whether a parameter of the batch changed this joint's limits, and the updated limits
(section 6). -/
def scenario_check_for_limits_update (joint_name : String) :
    List LimitParameter → JointLimits → Bool × JointLimits
  | [], limits => (false, limits)
  | p :: rest, limits =>
    ((set_limit joint_name limits p).1 ||
        (scenario_check_for_limits_update joint_name rest (set_limit joint_name limits p).2).1,
      (scenario_check_for_limits_update joint_name rest (set_limit joint_name limits p).2).2)

/-- A parameter source whose declarations succeed and whose stored limits are
`all_limits` for every joint. -/
def scenario_source : ParamSource LimitParameter :=
  { declare_parameters := fun _ => true
    get_joint_limits := fun _ _ => (true, all_limits)
    check_for_limits_update := scenario_check_for_limits_update
    default_joint_limits := no_limits }

/-- Hooks of a limiter without state of its own: `on_init` succeeds and `on_enforce`
changes nothing. -/
def scenario_hooks : Hooks Unit Unit :=
  { on_init := fun _ => (true, ())
    on_enforce := fun _ _ desired _ => (false, desired, ()) }

/-- A limiter as default-constructed: no joints, null interfaces, an empty buffer. -/
def fresh_limiter : JointLimiterInterface Unit :=
  { number_of_joints := 0, joint_names := [], joint_limits := [], soft_joint_limits := [],
    node_param_itf := false, node_logging_itf := false, updated_limits := [],
    parameter_callback := false, errors_logged := 0, on_init_calls := 0, impl := () }

/-- The limiter for `joint1` after the parameter-based `init`. -/
def initialised_limiter : JointLimiterInterface Unit :=
  (init scenario_hooks scenario_source fresh_limiter ["joint1"] true true).2

/-- A first batch: `joint1.max_velocity` becomes 1. -/
def slow_down : List LimitParameter :=
  [{ joint := "joint1", key := LimitKey.max_velocity, value := Dbl.fin 1 }]

/-- A second batch: `joint1.max_effort` becomes 5. -/
def weaken : List LimitParameter :=
  [{ joint := "joint1", key := LimitKey.max_effort, value := Dbl.fin 5 }]

/-- Hard limits of the recovery scenario: position `[-1, +1]` and velocity 4. -/
def cushion_limits : JointLimits :=
  { no_limits with
    has_position_limits := true, min_position := Dbl.fin (-1), max_position := Dbl.fin 1
    has_velocity_limits := true, max_velocity := Dbl.fin 4 }

/-- A sample at position 0.75, between the soft upper limit 0.5 and the hard one. -/
def outside_soft : JointControlInterfacesData :=
  { joint_name := "joint1", position := some (Dbl.fin (3 / 4)), velocity := none,
    effort := none, acceleration := none, jerk := none }

/-- A sample at position 0.5, the soft upper limit. -/
def at_soft : JointControlInterfacesData :=
  { joint_name := "joint1", position := some (Dbl.fin (1 / 2)), velocity := none,
    effort := none, acceleration := none, jerk := none }

/-- A limiter for `joint1` with the limits `cushion_limits`, the soft limits
`cushion_soft_limits` and the previous command `outside_soft`. -/
def cushion_position_limiter : JointSoftLimiter :=
  { joint_names := ["joint1"], joint_limits := [cushion_limits],
    soft_joint_limits := [cushion_soft_limits], prev_command := outside_soft }

/-- Hard limits with no active limit at all, whose `max_jerk` nevertheless holds the
value 1 (`has_jerk_limits` is `false`). -/
def stale_jerk_limits : JointLimits :=
  { no_limits with max_jerk := Dbl.fin 1 }

/-- A command that carries the jerk 5 and nothing else. -/
def jerk_command : JointControlInterfacesData :=
  { joint_name := "joint1", position := none, velocity := none, effort := none,
    acceleration := none, jerk := some (Dbl.fin 5) }

/-- A measurement at position 5, outside the hard envelope `[-1, +1]`. -/
def beyond_hard : JointControlInterfacesData :=
  { joint_name := "joint1", position := some (Dbl.fin 5), velocity := none,
    effort := none, acceleration := none, jerk := none }

/-- A measurement whose position is plus infinity. -/
def infinite_position : JointControlInterfacesData :=
  { joint_name := "joint1", position := some Dbl.pinf, velocity := none,
    effort := none, acceleration := none, jerk := none }

/-- Soft limits `[-0.5, +0.5]` inside the hard envelope `[-1, +1]`, with
`k_position = 16` and `k_velocity = 1`. -/
def damped_soft_limits : SoftJointLimits :=
  { min_position := Dbl.fin (-1 / 2), max_position := Dbl.fin (1 / 2),
    k_position := Dbl.fin 16, k_velocity := Dbl.fin 1 }

/-- A sample at position 0.4375 moving at 1.5 towards the soft upper limit 0.5, at zero
effort, acceleration and jerk: the position is inside the soft limits
`damped_soft_limits` and every value inside the hard limits `all_limits`. -/
def approach_sample : JointControlInterfacesData :=
  { joint_name := "joint1", position := some (Dbl.fin (7 / 16)),
    velocity := some (Dbl.fin (3 / 2)), effort := some (Dbl.fin 0),
    acceleration := some (Dbl.fin 0), jerk := some (Dbl.fin 0) }

/-- A limiter for `joint1` with every hard limit active (`all_limits`), the soft limits
`damped_soft_limits`, and the previous command `approach_sample`. -/
def damped_limiter : JointSoftLimiter :=
  { joint_names := ["joint1"], joint_limits := [all_limits],
    soft_joint_limits := [damped_soft_limits], prev_command := approach_sample }

/-- The environment of the scenarios with the `std::clamp` of the LLVM C++ library: the
comparison chain `(v < lo) ? lo : (hi < v) ? hi : v` outside the precondition too. -/
def chain_env : Env :=
  { scenario_env with
    clamp_undefined := fun v lo hi =>
      if Dbl.lt v lo then lo else if Dbl.lt hi v then hi else v }

/-- A measurement that carries only the velocity -10, beyond the velocity limit 2 of
`velocity_ramp_limits`. -/
def reverse_overspeed : JointControlInterfacesData :=
  { joint_name := "joint1", position := none, velocity := some (Dbl.fin (-10)),
    effort := none, acceleration := none, jerk := none }

/-- A command that carries the velocity 0 and nothing else. -/
def stop_command : JointControlInterfacesData :=
  { joint_name := "joint1", position := none, velocity := some (Dbl.fin 0),
    effort := none, acceleration := none, jerk := none }

/-- A limiter for `joint1` with the limits `velocity_ramp_limits`, no soft limits and the
previous commanded velocity 0. -/
def ramp_limiter : JointSoftLimiter :=
  { joint_names := ["joint1"], joint_limits := [velocity_ramp_limits],
    soft_joint_limits := [], prev_command := stop_command }

/-- A measurement that carries only the velocity -0.5, inside the velocity limit 2. -/
def reversing_state : JointControlInterfacesData :=
  { joint_name := "joint1", position := none, velocity := some (Dbl.fin (-1 / 2)),
    effort := none, acceleration := none, jerk := none }

/-- A command that carries the velocity 1 and nothing else. -/
def slow_command : JointControlInterfacesData :=
  { joint_name := "joint1", position := none, velocity := some (Dbl.fin 1),
    effort := none, acceleration := none, jerk := none }

/-! ## Theorems -/

/-! ### Order and arithmetic of `Dbl` -/

namespace Dbl

theorem lt_irrefl (x : Dbl) : lt x x = false := by
  cases x <;> simp [lt]

theorem le_ne_nan {x y : Dbl} (h : le x y = true) : x ≠ nan ∧ y ≠ nan := by
  cases x <;> cases y <;> simp [le] at h ⊢

theorem le_trans {x y z : Dbl} (h1 : le x y = true) (h2 : le y z = true) :
    le x z = true := by
  cases x <;> cases y <;> cases z <;> simp [le, val] at h1 h2 ⊢ <;> linarith

theorem le_of_not_lt {x y : Dbl} (hx : x ≠ nan) (hy : y ≠ nan) (h : lt y x = false) :
    le x y = true := by
  cases x <;> cases y <;> simp [lt, le, val] at hx hy h ⊢ <;> linarith

theorem not_lt_of_le {x y : Dbl} (h : le x y = true) : lt y x = false := by
  cases x <;> cases y <;> simp [lt, le, val] at h ⊢ <;> linarith

theorem le_of_lt {x y : Dbl} (h : lt x y = true) : le x y = true := by
  cases x <;> cases y <;> simp [lt, le, val] at h ⊢ <;> linarith

theorem ne_of_lt {x y : Dbl} (h : lt x y = true) : x ≠ y := by
  intro e
  rw [e, lt_irrefl] at h
  exact Bool.noConfusion h

theorem le_refl {x : Dbl} (hx : x ≠ nan) : le x x = true := by
  cases x <;> simp [le] at hx ⊢

theorem lt_nan_left (x : Dbl) : lt nan x = false := by
  cases x <;> simp [lt]

theorem lt_nan_right (x : Dbl) : lt x nan = false := by
  cases x <;> simp [lt]

/-- `std::max(a, b)` is at least `b` as soon as the result is not NaN. -/
theorem le_max_right {a b : Dbl} (hb : b ≠ nan) (h : max a b ≠ nan) :
    le b (max a b) = true := by
  unfold max at h ⊢
  by_cases hlt : lt a b = true
  · simp only [hlt, if_true]; exact le_refl hb
  · have hf : lt a b = false := by simpa using hlt
    simp only [hf] at h ⊢
    exact le_of_not_lt hb h hf

/-- `std::min(a, b)` is at most `b` as soon as the result is not NaN. -/
theorem min_le_right {a b : Dbl} (hb : b ≠ nan) (h : min a b ≠ nan) :
    le (min a b) b = true := by
  unfold min at h ⊢
  by_cases hlt : lt b a = true
  · simp only [hlt, if_true]; exact le_refl hb
  · have hf : lt b a = false := by simpa using hlt
    simp only [hf] at h ⊢
    exact le_of_not_lt h hb hf

/-- `std::max(a, b)` is at least `a` when `a` is not NaN. -/
theorem le_max_left {a b : Dbl} (ha : a ≠ nan) : le a (max a b) = true := by
  unfold max
  by_cases hlt : lt a b = true
  · simp only [hlt, if_true]; exact le_of_lt hlt
  · have hf : lt a b = false := by simpa using hlt
    simp only [hf]; exact le_refl ha

/-- `std::min(a, b)` is at most `a` when `a` is not NaN. -/
theorem min_le_left {a b : Dbl} (ha : a ≠ nan) : le (min a b) a = true := by
  unfold min
  by_cases hlt : lt b a = true
  · simp only [hlt, if_true]; exact le_of_lt hlt
  · have hf : lt b a = false := by simpa using hlt
    simp only [hf]; exact le_refl ha

theorem neg_le_zero_of_nonneg {m : Dbl} (h : le (fin 0) m = true) :
    le (neg m) (fin 0) = true := by
  cases m <;> simp [le, neg, val] at h ⊢
  split_ifs <;> simp [val]
  linarith

theorem neg_le_self_of_nonneg {m : Dbl} (h : le (fin 0) m = true) :
    le (neg m) m = true :=
  le_trans (neg_le_zero_of_nonneg h) h

theorem isfinite_of_between {a x b : Dbl} (ha : a.isfinite = true) (hb : b.isfinite = true)
    (h1 : le a x = true) (h2 : le x b = true) : x.isfinite = true := by
  cases a <;> cases b <;> cases x <;> simp [isfinite, le] at ha hb h1 h2 ⊢

theorem le_max_of_le_right {m a b : Dbl} (h : le m b = true) (hn : max a b ≠ nan) :
    le m (max a b) = true :=
  le_trans h (le_max_right (le_ne_nan h).2 hn)

theorem min_le_of_le_right {m a b : Dbl} (h : le b m = true) (hn : min a b ≠ nan) :
    le (min a b) m = true :=
  le_trans (min_le_right (le_ne_nan h).1 hn) h

theorem val_fin (q : ℚ) : (fin q).val = q := rfl

theorem neg_finite {x : Dbl} (hx : x.isfinite = true) :
    (neg x).isfinite = true ∧ (neg x).val = -x.val := by
  cases x <;> simp [isfinite, neg, val] at hx ⊢
  split_ifs with h <;> simp [isfinite, val, h]

theorem add_finite {x y : Dbl} (hx : x.isfinite = true) (hy : y.isfinite = true) :
    (add x y).isfinite = true ∧ (add x y).val = x.val + y.val := by
  cases x <;> cases y <;> simp [isfinite, add, val] at hx hy ⊢

theorem sub_finite {x y : Dbl} (hx : x.isfinite = true) (hy : y.isfinite = true) :
    (sub x y).isfinite = true ∧ (sub x y).val = x.val - y.val := by
  obtain ⟨h1, h2⟩ := neg_finite hy
  obtain ⟨h3, h4⟩ := add_finite hx h1
  exact ⟨h3, by rw [sub, h4, h2]; ring⟩

theorem mul_finite {x y : Dbl} (hx : x.isfinite = true) (hy : y.isfinite = true) :
    (mul x y).isfinite = true ∧ (mul x y).val = x.val * y.val := by
  cases x <;> cases y <;> simp [isfinite, mul, val, isNaN, isInf, isZero] at hx hy ⊢ <;>
    split_ifs <;> simp_all [isfinite, val]

theorem le_iff_val {x y : Dbl} (hx : x.isfinite = true) (hy : y.isfinite = true) :
    le x y = true ↔ x.val ≤ y.val := by
  cases x <;> cases y <;> simp [isfinite, le, val] at hx hy ⊢

theorem min_le_of_left_le {a b m : Dbl} (h : le a m = true) : le (min a b) m = true := by
  unfold min
  by_cases hlt : lt b a = true
  · simp only [hlt, if_true]; exact le_trans (le_of_lt hlt) h
  · have hf : lt b a = false := by simpa using hlt
    simpa only [hf] using h

theorem min_le_of_right_le {a b m : Dbl} (ha : a ≠ nan) (h : le b m = true) :
    le (min a b) m = true := by
  unfold min
  by_cases hlt : lt b a = true
  · simpa only [hlt, if_true] using h
  · have hf : lt b a = false := by simpa using hlt
    simp only [hf]
    exact le_trans (le_of_not_lt ha (le_ne_nan h).1 hf) h

end Dbl

/-! ### `std::clamp`, `is_limited` and the clamping steps -/

/-- Inside its precondition `std::clamp` returns the value itself exactly when
`is_limited` is false. -/
theorem clamp_eq_self_of_not_limited (E : Env) {v lo hi : Dbl}
    (hpre : Dbl.lt hi lo = false) (h : is_limited v lo hi = false) : clamp E v lo hi = v := by
  unfold is_limited at h
  simp only [Bool.or_eq_false_iff] at h
  simp [clamp, hpre, h.1, h.2]

/-- Inside its precondition `std::clamp` changes every value `is_limited` flags. -/
theorem clamp_ne_self_of_limited (E : Env) {v lo hi : Dbl}
    (hpre : Dbl.lt hi lo = false) (h : is_limited v lo hi = true) : clamp E v lo hi ≠ v := by
  unfold is_limited at h
  unfold clamp
  simp only [hpre]
  by_cases h1 : Dbl.lt v lo = true
  · simp only [h1, if_true]
    exact fun e => Dbl.ne_of_lt h1 e.symm
  · have h1f : Dbl.lt v lo = false := by simpa using h1
    have h2 : Dbl.lt hi v = true := by simpa [h1f] using h
    simp only [h1f, h2, if_true]
    exact Dbl.ne_of_lt h2

/-- A value that is not NaN is clamped into a proper interval. -/
theorem clamp_mem (E : Env) {v lo hi : Dbl} (hv : v ≠ Dbl.nan)
    (hiv : Dbl.le lo hi = true) :
    Dbl.le lo (clamp E v lo hi) = true ∧ Dbl.le (clamp E v lo hi) hi = true := by
  have hpre := Dbl.not_lt_of_le hiv
  have hn := Dbl.le_ne_nan hiv
  unfold clamp
  simp only [hpre]
  by_cases h1 : Dbl.lt v lo = true
  · simp only [h1, if_true]
    exact ⟨Dbl.le_refl hn.1, hiv⟩
  · have h1f : Dbl.lt v lo = false := by simpa using h1
    by_cases h2 : Dbl.lt hi v = true
    · simp only [h1f, h2, if_true]
      exact ⟨hiv, Dbl.le_refl hn.2⟩
    · have h2f : Dbl.lt hi v = false := by simpa using h2
      simp only [h1f, h2f]
      exact ⟨Dbl.le_of_not_lt hn.1 hv h1f, Dbl.le_of_not_lt hv hn.2 h2f⟩

/-- A NaN goes through `std::clamp` unchanged inside the precondition. -/
theorem clamp_nan (E : Env) {lo hi : Dbl} (hpre : Dbl.lt hi lo = false) :
    clamp E Dbl.nan lo hi = Dbl.nan := by
  simp [clamp, hpre, Dbl.lt_nan_left, Dbl.lt_nan_right]

/-- A clamping step changes the quantity exactly when it flags it, inside the precondition
of `std::clamp` or when `std::clamp` is the comparison chain. -/
theorem clamped_ne_iff_limited (E : Env) (q : Option Dbl) (iv : Dbl × Dbl)
    (h : clamp_defined q iv = true ∨ comparison_clamp E) :
    clamped E q iv ≠ q ↔ limited q iv = true := by
  cases q with
  | none => simp [clamped, limited]
  | some v =>
    simp only [clamped, limited, ne_eq, Option.some.injEq]
    rcases h with h | h
    · have hpre : Dbl.lt iv.2 iv.1 = false := by simpa [clamp_defined] using h
      constructor
      · intro hne
        by_contra hl
        have hl' : is_limited v iv.1 iv.2 = false := by simpa using hl
        exact hne (clamp_eq_self_of_not_limited E hpre hl')
      · intro hl
        exact clamp_ne_self_of_limited E hpre hl
    · have hc : clamp E v iv.1 iv.2 =
          (if Dbl.lt v iv.1 then iv.1 else if Dbl.lt iv.2 v then iv.2 else v) := by
        unfold clamp
        split_ifs <;> simp_all [h v iv.1 iv.2]
      rw [hc]
      unfold is_limited
      by_cases h1 : Dbl.lt v iv.1 = true
      · simp only [h1, if_true, Bool.true_or, iff_true]
        exact fun e => Dbl.ne_of_lt h1 e.symm
      · have h1f : Dbl.lt v iv.1 = false := by simpa using h1
        by_cases h2 : Dbl.lt iv.2 v = true
        · simp only [h1f, h2, if_true, Bool.false_eq_true, if_false, Bool.or_true, iff_true]
          exact Dbl.ne_of_lt h2
        · have h2f : Dbl.lt iv.2 v = false := by simpa using h2
          simp [h1f, h2f]

/-- A clamping step into a proper interval inside `[lo, hi]` leaves a quantity that is
not NaN within `[lo, hi]`. -/
theorem clamped_within (E : Env) (q : Option Dbl) (iv : Dbl × Dbl) (lo hi : Dbl)
    (hq : not_nan q = true) (hiv : proper iv = true) (h1 : Dbl.le lo iv.1 = true)
    (h2 : Dbl.le iv.2 hi = true) : within (clamped E q iv) lo hi = true := by
  cases q with
  | none => simp [clamped, within]
  | some v =>
    have hv : v ≠ Dbl.nan := by
      intro e; simp [not_nan, e, Dbl.isNaN] at hq
    obtain ⟨k1, k2⟩ := clamp_mem E hv hiv
    simp [clamped, within, Dbl.le_trans h1 k1, Dbl.le_trans k2 h2]

/-- A clamping step into a proper interval inside `[lo, hi]`, followed by the replacement
of a non-finite value by `0.0`, leaves the quantity within `[lo, hi]` when 0 is. -/
theorem zeroed_within (E : Env) (q : Option Dbl) (iv : Dbl × Dbl) (lo hi : Dbl)
    (hiv : proper iv = true) (h1 : Dbl.le lo iv.1 = true) (h2 : Dbl.le iv.2 hi = true)
    (z1 : Dbl.le lo (Dbl.fin 0) = true) (z2 : Dbl.le (Dbl.fin 0) hi = true) :
    within (if non_finite (clamped E q iv) then some (Dbl.fin 0) else clamped E q iv)
      lo hi = true := by
  by_cases hf : non_finite (clamped E q iv) = true
  · simp [hf, within, z1, z2]
  · have hf' : non_finite (clamped E q iv) = false := by simpa using hf
    simp only [hf', Bool.false_eq_true, if_false]
    apply clamped_within E q iv lo hi _ hiv h1 h2
    cases q with
    | none => rfl
    | some v =>
      cases v <;> simp [not_nan, Dbl.isNaN]
      have hpre : Dbl.lt iv.2 iv.1 = false := Dbl.not_lt_of_le hiv
      simp [clamped, non_finite, clamp_nan E hpre, Dbl.isfinite] at hf'

/-- A quantity within finite bounds is finite. -/
theorem non_finite_of_within (q : Option Dbl) (lo hi : Dbl) (h : within q lo hi = true)
    (hlo : lo.isfinite = true) (hhi : hi.isfinite = true) : non_finite q = false := by
  cases q with
  | none => rfl
  | some v =>
    simp only [within, Bool.and_eq_true] at h
    simp [non_finite, Dbl.isfinite_of_between hlo hhi h.1 h.2]

/-- A quantity that is finite and inside its interval is neither flagged nor changed, and
its clamping step is inside the precondition. -/
theorem finite_inside_spec (E : Env) (q : Option Dbl) (iv : Dbl × Dbl)
    (h : finite_inside q iv = true) :
    limited q iv = false ∧ clamped E q iv = q ∧ non_finite q = false := by
  cases q with
  | none => simp [clamped, limited, non_finite]
  | some v =>
    simp only [finite_inside, Bool.and_eq_true] at h
    obtain ⟨⟨hf, h1⟩, h2⟩ := h
    have hl : is_limited v iv.1 iv.2 = false := by
      simp [is_limited, Dbl.not_lt_of_le h1, Dbl.not_lt_of_le h2]
    have hpre : Dbl.lt iv.2 iv.1 = false := Dbl.not_lt_of_le (Dbl.le_trans h1 h2)
    refine ⟨hl, ?_, ?_⟩
    · simp [clamped, clamp_eq_self_of_not_limited E hpre hl]
    · simp [non_finite, hf]

/-- When no sanitation branch fires, sanitation leaves the sample as it is. -/
theorem sanitize_eq_self (actual d : JointControlInterfacesData)
    (h : sanitation_fires actual d = false) : sanitize actual d = d := by
  simp only [sanitation_fires, Bool.or_eq_false_iff] at h
  obtain ⟨⟨⟨h1, h2⟩, h3⟩, h4⟩ := h
  simp [sanitize, h1, h2, h3, h4]

/-- Seeding leaves a `prev_command_` that has data as it is. -/
theorem seed_prev_command_of_has_data (prev actual desired : JointControlInterfacesData)
    (h : prev.has_data = true) : seed_prev_command prev actual desired = prev := by
  simp [seed_prev_command, h]

/-- With a positive `dt` and a joint at index 0, `on_enforce` is `enforce_joint`. -/
theorem on_enforce_pos (E : Env) (self : JointSoftLimiter)
    (actual desired : JointControlInterfacesData) (dt : Duration)
    (hard : JointLimits) (hards : List JointLimits) (name : String) (names : List String)
    (hdt : 0 < dt.nanoseconds) (hl : self.joint_limits = hard :: hards)
    (hn : self.joint_names = name :: names) :
    on_enforce E self actual desired dt =
      some (enforce_joint E self name hard (soft_limits_of E self) actual desired
        dt.seconds) := by
  have h : Dbl.le dt.seconds (Dbl.fin 0) = false := by
    have hq : (0 : ℚ) < (dt.nanoseconds : ℚ) := by exact_mod_cast hdt
    simp only [Duration.seconds, Dbl.le, Dbl.val, decide_eq_false_iff_not, not_le]
    positivity
  simp [on_enforce, h, hl, hn]

/-- Line 125: one degree per second is `M_PI / 180`, a positive finite value. -/
theorem soft_limit_reach_velocity_eq : soft_limit_reach_velocity = Dbl.fin (M_PI / 180) := by
  norm_num [soft_limit_reach_velocity, M_PI, Dbl.mul, Dbl.div, Dbl.isNaN, Dbl.isInf,
    Dbl.isZero, Dbl.val, Dbl.signbit]

/-! ### C1: the `dt` guard -/

/-- C1: for every limiter state, every actual and desired sample and every `dt` with
`dt.seconds() <= 0`, `on_enforce` returns `false` and leaves both the desired sample and
the stored `prev_command_` (indeed the whole limiter) as they were. -/
theorem on_enforce_rejects_nonpositive_dt (E : Env) (self : JointSoftLimiter)
    (actual desired : JointControlInterfacesData) (dt : Duration)
    (hdt : Dbl.le dt.seconds (Dbl.fin 0) = true) :
    on_enforce E self actual desired dt =
      some { limits_enforced := false, desired := desired, limiter := self } := by
  simp [on_enforce, hdt]

/-- C1, the scenario of the spec: `dt = -0.01` and `desired.position = 99` give the
return value `false` and everything left as it was. -/
theorem on_enforce_rejects_nonpositive_dt_witness :
    Dbl.le (Duration.seconds ⟨-10000000⟩) (Dbl.fin 0) = true ∧
      on_enforce scenario_env (limiter_of position_limits_only) empty_sample
          { empty_sample with position := some (Dbl.fin 99) } ⟨-10000000⟩ =
        some { limits_enforced := false
               desired := { empty_sample with position := some (Dbl.fin 99) }
               limiter := limiter_of position_limits_only } :=
  ⟨by simp [Duration.seconds, Dbl.le, Dbl.val]; norm_num,
    on_enforce_rejects_nonpositive_dt _ _ _ _ _
      (by simp [Duration.seconds, Dbl.le, Dbl.val]; norm_num)⟩

/-! ### C2: envelope containment -/

/-- The lower effort bound is at least every bound below the solver's. -/
theorem effort_bounds_lower (E : Env) (hard : JointLimits) (soft : SoftJointLimits)
    (actual : JointControlInterfacesData) (dts : Dbl) (sv : Dbl × Dbl) (m : Dbl)
    (hs : Dbl.le m (E.compute_effort_limits hard actual.position actual.velocity
      dts).lower_limit = true)
    (hne : (effort_bounds E hard soft actual dts sv).1 ≠ Dbl.nan) :
    Dbl.le m (effort_bounds E hard soft actual dts sv).1 = true := by
  unfold effort_bounds at hne ⊢
  cases hv : actual.velocity with
  | none => simpa [hv] using hs
  | some av =>
    simp only [hv] at hne hs ⊢
    by_cases hc : (hard.has_effort_limits && soft.k_velocity.isfinite) = true
    · simp only [hc, if_true] at hne ⊢
      exact Dbl.le_max_of_le_right hs hne
    · simp only [hc, Bool.false_eq_true, if_false] at hne ⊢
      exact hs

/-- The upper effort bound is at most every bound above the solver's. -/
theorem effort_bounds_upper (E : Env) (hard : JointLimits) (soft : SoftJointLimits)
    (actual : JointControlInterfacesData) (dts : Dbl) (sv : Dbl × Dbl) (m : Dbl)
    (hs : Dbl.le (E.compute_effort_limits hard actual.position actual.velocity
      dts).upper_limit m = true)
    (hne : (effort_bounds E hard soft actual dts sv).2 ≠ Dbl.nan) :
    Dbl.le (effort_bounds E hard soft actual dts sv).2 m = true := by
  unfold effort_bounds at hne ⊢
  cases hv : actual.velocity with
  | none => simpa [hv] using hs
  | some av =>
    simp only [hv] at hne hs ⊢
    by_cases hc : (hard.has_effort_limits && soft.k_velocity.isfinite) = true
    · simp only [hc, if_true] at hne ⊢
      exact Dbl.min_le_of_le_right hs hne
    · simp only [hc, Bool.false_eq_true, if_false] at hne ⊢
      exact hs

/-- Where C2 holds: for every call of `on_enforce` with `dt > 0`, and for each quantity
that `desired` carries whose limit is active, whose interval handed to `std::clamp` is
proper (`lower <= upper`) and whose solver helper returns bounds inside the hard bounds,
the value left in `desired` lies within the hard bounds: a position that was not NaN in
`[min_position, max_position]` (both finite), a velocity in `[-max_velocity,
+max_velocity]`, an effort that was not NaN in `[-max_effort, +max_effort]`, an
acceleration in `[-M, +M]` for every bound `M >= 0` that holds the solver's interval,
a jerk in `[-max_jerk, +max_jerk]` (with `max_* >= 0`). -/
theorem envelope_containment (E : Env) (self : JointSoftLimiter)
    (actual desired : JointControlInterfacesData) (dt : Duration)
    (hard : JointLimits) (hards : List JointLimits) (name : String) (names : List String)
    (hdt : 0 < dt.nanoseconds) (hl : self.joint_limits = hard :: hards)
    (hn : self.joint_names = name :: names) :
    ∃ r, on_enforce E self actual desired dt = some r ∧
      (hard.has_position_limits = true → not_nan desired.position = true →
        hard.min_position.isfinite = true → hard.max_position.isfinite = true →
        proper (position_interval E name hard (soft_limits_of E self)
          (seed_prev_command self.prev_command actual desired) actual dt.seconds) = true →
        solver_within (E.compute_position_limits name hard actual.velocity actual.position
          (seed_prev_command self.prev_command actual desired).position dt.seconds)
          hard.min_position hard.max_position = true →
        within r.desired.position hard.min_position hard.max_position = true) ∧
      (hard.has_velocity_limits = true → Dbl.le (Dbl.fin 0) hard.max_velocity = true →
        proper (velocity_interval E name hard (soft_limits_of E self)
          (seed_prev_command self.prev_command actual desired) actual desired
          dt.seconds) = true →
        (∀ v, desired.velocity = some v →
          solver_within (E.compute_velocity_limits name hard v actual.position
            (seed_prev_command self.prev_command actual desired).velocity dt.seconds)
            (Dbl.neg hard.max_velocity) hard.max_velocity = true) →
        within r.desired.velocity (Dbl.neg hard.max_velocity) hard.max_velocity = true) ∧
      (hard.has_effort_limits = true → not_nan desired.effort = true →
        proper (effort_interval E name hard (soft_limits_of E self)
          (seed_prev_command self.prev_command actual desired) actual desired
          dt.seconds) = true →
        solver_within (E.compute_effort_limits hard actual.position actual.velocity
          dt.seconds) (Dbl.neg hard.max_effort) hard.max_effort = true →
        within r.desired.effort (Dbl.neg hard.max_effort) hard.max_effort = true) ∧
      (∀ M, hard.has_acceleration_limits = true → Dbl.le (Dbl.fin 0) M = true →
        (∀ a, desired.acceleration = some a →
          proper (acceleration_interval E hard actual a) = true ∧
          solver_within (E.compute_acceleration_limits hard a actual.velocity)
            (Dbl.neg M) M = true) →
        within r.desired.acceleration (Dbl.neg M) M = true) ∧
      (hard.has_jerk_limits = true → Dbl.le (Dbl.fin 0) hard.max_jerk = true →
        within r.desired.jerk (Dbl.neg hard.max_jerk) hard.max_jerk = true) := by
  refine ⟨_, on_enforce_pos E self actual desired dt hard hards name names hdt hl hn, ?_, ?_,
    ?_, ?_, ?_⟩
  · intro _ hq hmin hmax hiv hs
    simp only [solver_within, Bool.and_eq_true] at hs
    have hne := Dbl.le_ne_nan hiv
    have hw := clamped_within E desired.position _ hard.min_position hard.max_position hq hiv
      (by
        simp only [position_interval, position_bounds] at hne ⊢
        exact Dbl.le_max_of_le_right hs.1 hne.1)
      (by
        simp only [position_interval, position_bounds] at hne ⊢
        exact Dbl.min_le_of_le_right hs.2 hne.2)
    have hnf := non_finite_of_within _ _ _ hw hmin hmax
    simp only [enforce_joint, sanitize, clamp_steps, hnf, Bool.false_and, Bool.false_eq_true,
      if_false]
    exact hw
  · intro _ hm hiv hs
    cases hv : desired.velocity with
    | none => simp [enforce_joint, sanitize, clamp_steps, hv, clamped, non_finite, within]
    | some v =>
      have hs' := hs v hv
      simp only [solver_within, Bool.and_eq_true] at hs'
      have hne := Dbl.le_ne_nan hiv
      have hz := zeroed_within E desired.velocity _ _ _ hiv
        (by
          simp only [hv, velocity_interval, velocity_bounds] at hne ⊢
          exact Dbl.le_max_of_le_right hs'.1 hne.1)
        (by
          simp only [hv, velocity_interval, velocity_bounds] at hne ⊢
          exact Dbl.min_le_of_le_right hs'.2 hne.2)
        (Dbl.neg_le_zero_of_nonneg hm) hm
      simpa only [enforce_joint, sanitize, clamp_steps] using hz
  · intro _ hq hiv hs
    simp only [solver_within, Bool.and_eq_true] at hs
    have hne := Dbl.le_ne_nan hiv
    have hw := clamped_within E desired.effort _ (Dbl.neg hard.max_effort) hard.max_effort
      hq hiv
      (effort_bounds_lower E hard _ actual _ _ _ hs.1 hne.1)
      (effort_bounds_upper E hard _ actual _ _ _ hs.2 hne.2)
    simpa only [enforce_joint, sanitize, clamp_steps] using hw
  · intro M _ hm hs
    cases ha : desired.acceleration with
    | none => simp [enforce_joint, sanitize, clamp_steps, ha, non_finite, within]
    | some a =>
      obtain ⟨hiv, hs'⟩ := hs a ha
      simp only [solver_within, Bool.and_eq_true] at hs'
      have hz := zeroed_within E (some a) (acceleration_interval E hard actual a) _ _ hiv
        hs'.1 hs'.2 (Dbl.neg_le_zero_of_nonneg hm) hm
      simpa only [enforce_joint, sanitize, clamp_steps, ha, clamped] using hz
  · intro _ hm
    have hz := zeroed_within E desired.jerk (jerk_interval hard) (Dbl.neg hard.max_jerk)
      hard.max_jerk (Dbl.neg_le_self_of_nonneg hm)
      (Dbl.le_refl (Dbl.le_ne_nan (Dbl.neg_le_self_of_nonneg hm)).1)
      (Dbl.le_refl (Dbl.le_ne_nan hm).2) (Dbl.neg_le_zero_of_nonneg hm) hm
    simpa only [enforce_joint, sanitize, clamp_steps] using hz

/-- Containment on the position-clamp scenario of the spec: limits `[-1, +1]`,
`actual.position = 0.9`, `desired.position = 1.5`, `dt = 0.01` leave a position within
`[-1, +1]`. -/
theorem envelope_containment_witness :
    ∃ r, on_enforce scenario_env (limiter_of position_limits_only)
        { empty_sample with position := some (Dbl.fin (9 / 10)) }
        { empty_sample with position := some (Dbl.fin (3 / 2)) } ⟨10000000⟩ = some r ∧
      within r.desired.position (Dbl.fin (-1)) (Dbl.fin 1) = true := by
  obtain ⟨r, hr, hpos, _⟩ :=
    envelope_containment scenario_env (limiter_of position_limits_only)
      { empty_sample with position := some (Dbl.fin (9 / 10)) }
      { empty_sample with position := some (Dbl.fin (3 / 2)) } ⟨10000000⟩
      position_limits_only [] "joint1" [] (by decide) rfl rfl
  refine ⟨r, hr, hpos rfl rfl rfl rfl ?_ ?_⟩
  · norm_num [proper, position_interval, position_bounds, soft_velocity_envelope,
      position_limits_only, no_limits, empty_sample, limiter_of, soft_limits_of,
      scenario_env, scenario_position_limits, scenario_has_soft_position_limits,
      Dbl.max, Dbl.min, Dbl.lt, Dbl.le, Dbl.val]
  · norm_num [solver_within, position_limits_only, no_limits, scenario_env,
      scenario_position_limits, Dbl.le, Dbl.val]

/-- C2 and the sanitation of lines 229-233: with hard position limits `[-1, +1]` and
`dt = 0.01`, a measured position 5 outside the hard envelope and
`desired.position = NaN`, the call leaves `desired.position = 5`, which is not within
`[-1, +1]`. -/
theorem sanitized_position_leaves_envelope :
    (on_enforce scenario_env (limiter_of position_limits_only)
        { empty_sample with position := some (Dbl.fin 5) }
        { empty_sample with position := some Dbl.nan } ⟨10000000⟩).map
        (fun r => (r.desired.position,
          within r.desired.position position_limits_only.min_position
            position_limits_only.max_position)) = some (some (Dbl.fin 5), false) := by
  rw [on_enforce_pos scenario_env _ _ _ _ position_limits_only [] "joint1" []
    (by decide) rfl rfl]
  norm_num [enforce_joint, clamp_flag, clamp_steps, sanitation_fires, sanitize, limited,
    clamped, non_finite, clamp, is_limited, position_interval, position_bounds,
    soft_velocity_envelope, within,
    position_limits_only, no_limits, empty_sample, scenario_env, seed_prev_command,
    JointControlInterfacesData.has_data,
    scenario_position_limits, scenario_has_soft_position_limits,
    soft_limits_of, limiter_of, Dbl.max, Dbl.min, Dbl.lt, Dbl.le, Dbl.val, Dbl.isfinite]

/-- C2, at the failing input: hard limits velocity 2 and acceleration 10 (both active),
an empty `prev_command_`, a measured velocity -10, `desired.velocity = 0`, `dt = 0.01`.
Lines 167-170 intersect `[-2, 2]` with `[-10.1, -9.9]` by `std::max` and `std::min`, the
velocity interval handed to `std::clamp` is `[-2, -9.9]`, and the velocity comes back
as -9.9, outside the hard bounds `[-2, +2]`, with the `std::clamp` of the GNU library
and with that of the LLVM library alike. -/
theorem measured_overspeed_leaves_velocity_bound :
    velocity_interval scenario_env "joint1" velocity_ramp_limits
        scenario_env.default_soft_joint_limits
        (seed_prev_command empty_sample reverse_overspeed stop_command) reverse_overspeed
        stop_command (Duration.seconds ⟨10000000⟩) = (Dbl.fin (-2), Dbl.fin (-99 / 10)) ∧
    (on_enforce scenario_env (limiter_of velocity_ramp_limits) reverse_overspeed stop_command
        ⟨10000000⟩).map (fun r => (r.desired.velocity, r.limits_enforced,
          within r.desired.velocity (Dbl.neg velocity_ramp_limits.max_velocity)
            velocity_ramp_limits.max_velocity)) =
        some (some (Dbl.fin (-99 / 10)), true, false) ∧
    (on_enforce chain_env (limiter_of velocity_ramp_limits) reverse_overspeed stop_command
        ⟨10000000⟩).map (fun r => (r.desired.velocity, r.limits_enforced,
          within r.desired.velocity (Dbl.neg velocity_ramp_limits.max_velocity)
            velocity_ramp_limits.max_velocity)) =
        some (some (Dbl.fin (-99 / 10)), true, false) := by
  refine ⟨?_, ?_, ?_⟩
  · norm_num [velocity_interval, velocity_bounds, soft_velocity_envelope,
      velocity_ramp_limits, no_limits, empty_sample, reverse_overspeed, stop_command,
      scenario_env, seed_prev_command, JointControlInterfacesData.has_data,
      scenario_velocity_limits, Duration.seconds,
      Dbl.max, Dbl.min, Dbl.lt, Dbl.le, Dbl.val, Dbl.neg, Dbl.add, Dbl.sub, Dbl.mul,
      Dbl.isNaN, Dbl.isInf, Dbl.isZero, Dbl.signbit, Dbl.isfinite]
  · rw [on_enforce_pos scenario_env _ _ _ _ velocity_ramp_limits [] "joint1" []
      (by decide) rfl rfl]
    norm_num [enforce_joint, clamp_flag, clamp_steps, sanitation_fires, sanitize, limited,
      clamped, non_finite, clamp, is_limited, within, velocity_interval, velocity_bounds,
      soft_velocity_envelope, velocity_ramp_limits, no_limits, empty_sample,
      reverse_overspeed, stop_command, scenario_env,
      seed_prev_command, JointControlInterfacesData.has_data, scenario_velocity_limits,
      soft_limits_of, limiter_of, Duration.seconds,
      Dbl.max, Dbl.min, Dbl.lt, Dbl.le, Dbl.val, Dbl.neg, Dbl.add, Dbl.sub, Dbl.mul,
      Dbl.isNaN, Dbl.isInf, Dbl.isZero, Dbl.signbit, Dbl.isfinite]
  · rw [on_enforce_pos chain_env _ _ _ _ velocity_ramp_limits [] "joint1" []
      (by decide) rfl rfl]
    norm_num [enforce_joint, clamp_flag, clamp_steps, sanitation_fires, sanitize, limited,
      clamped, non_finite, clamp, is_limited, within, velocity_interval, velocity_bounds,
      soft_velocity_envelope, velocity_ramp_limits, no_limits, empty_sample,
      reverse_overspeed, stop_command, chain_env, scenario_env,
      seed_prev_command, JointControlInterfacesData.has_data, scenario_velocity_limits,
      soft_limits_of, limiter_of, Duration.seconds,
      Dbl.max, Dbl.min, Dbl.lt, Dbl.le, Dbl.val, Dbl.neg, Dbl.add, Dbl.sub, Dbl.mul,
      Dbl.isNaN, Dbl.isInf, Dbl.isZero, Dbl.signbit, Dbl.isfinite]

/-! ### C3: return-flag fidelity -/

/-- The return flag of `enforce_joint` when every clamping step is inside the precondition
of `std::clamp`, or `std::clamp` is the comparison chain. -/
theorem enforce_joint_flag_iff (E : Env) (self : JointSoftLimiter) (name : String)
    (hard : JointLimits) (soft : SoftJointLimits)
    (actual desired : JointControlInterfacesData) (dts : Dbl)
    (hdef : clamp_calls_defined E name hard soft
      (seed_prev_command self.prev_command actual desired) actual desired dts = true ∨
      comparison_clamp E) :
    ((enforce_joint E self name hard soft actual desired dts).limits_enforced = true ↔
      ((enforce_joint E self name hard soft actual desired dts).desired.position ≠
          desired.position ∨
        (enforce_joint E self name hard soft actual desired dts).desired.velocity ≠
          desired.velocity ∨
        (enforce_joint E self name hard soft actual desired dts).desired.effort ≠
          desired.effort ∨
        (enforce_joint E self name hard soft actual desired dts).desired.acceleration ≠
          desired.acceleration ∨
        (enforce_joint E self name hard soft actual desired dts).desired.jerk ≠
          desired.jerk ∨
        sanitation_fires actual (clamp_steps E name hard soft
          (seed_prev_command self.prev_command actual desired) actual desired dts) = true)) := by
  simp only [enforce_joint]
  generalize seed_prev_command self.prev_command actual desired = prev at hdef ⊢
  simp only [clamp_calls_defined, Bool.and_eq_true] at hdef
  have kp := clamped_ne_iff_limited E desired.position
    (position_interval E name hard soft prev actual dts) (hdef.imp (fun h => h.1.1.1.1) id)
  have kv := clamped_ne_iff_limited E desired.velocity
    (velocity_interval E name hard soft prev actual desired dts)
    (hdef.imp (fun h => h.1.1.1.2) id)
  have ke := clamped_ne_iff_limited E desired.effort
    (effort_interval E name hard soft prev actual desired dts)
    (hdef.imp (fun h => h.1.1.2) id)
  have kj := clamped_ne_iff_limited E desired.jerk (jerk_interval hard)
    (hdef.imp (fun h => h.2) id)
  have ha := hdef.imp (fun h => h.1.2) id
  have ka : (match desired.acceleration with
      | some a => some (clamp E a (acceleration_interval E hard actual a).1
          (acceleration_interval E hard actual a).2)
      | none => none) ≠ desired.acceleration ↔
      (match desired.acceleration with
      | some a => is_limited a (acceleration_interval E hard actual a).1
          (acceleration_interval E hard actual a).2
      | none => false) = true := by
    cases hacc : desired.acceleration with
    | none => simp
    | some a =>
      rw [hacc] at ha
      have ka := clamped_ne_iff_limited E (some a) (acceleration_interval E hard actual a) ha
      simpa only [clamped, limited, ne_eq] using ka
  by_cases hs : sanitation_fires actual (clamp_steps E name hard soft prev actual desired
      dts) = true
  · simp [hs]
  · have hs' : sanitation_fires actual (clamp_steps E name hard soft prev actual desired
        dts) = false := by simpa using hs
    simp only [sanitize_eq_self _ _ hs', hs', Bool.false_or, Bool.false_eq_true, or_false]
    simp only [clamp_steps, clamp_flag, Bool.or_eq_true]
    rw [kp, kv, ke, kj, ka]
    generalize limited desired.position _ = a1
    generalize limited desired.velocity _ = a2
    generalize limited desired.effort _ = a3
    generalize limited desired.jerk _ = a5
    generalize (match desired.acceleration with
      | some a => is_limited a (acceleration_interval E hard actual a).1
          (acceleration_interval E hard actual a).2
      | none => false) = a4
    cases a1 <;> cases a2 <;> cases a3 <;> cases a4 <;> cases a5 <;> simp

/-- A `desired` that is finite and inside every interval goes through `enforce_joint`
unchanged and unflagged. -/
theorem enforce_joint_pass_through (E : Env) (self : JointSoftLimiter) (name : String)
    (hard : JointLimits) (soft : SoftJointLimits)
    (actual desired : JointControlInterfacesData) (dts : Dbl)
    (hin : inside_every_interval E name hard soft
      (seed_prev_command self.prev_command actual desired) actual desired dts = true) :
    (enforce_joint E self name hard soft actual desired dts).desired = desired ∧
      (enforce_joint E self name hard soft actual desired dts).limits_enforced = false := by
  simp only [enforce_joint]
  generalize seed_prev_command self.prev_command actual desired = prev at hin ⊢
  simp only [inside_every_interval, Bool.and_eq_true] at hin
  obtain ⟨⟨⟨⟨hp, hv⟩, he⟩, ha⟩, hj⟩ := hin
  obtain ⟨lp, cp, np⟩ := finite_inside_spec E _ _ hp
  obtain ⟨lv, cv, nv⟩ := finite_inside_spec E _ _ hv
  obtain ⟨le, ce, _⟩ := finite_inside_spec E _ _ he
  obtain ⟨lj, cj, nj⟩ := finite_inside_spec E _ _ hj
  have hacc : (match desired.acceleration with
      | some a => some (clamp E a (acceleration_interval E hard actual a).1
          (acceleration_interval E hard actual a).2)
      | none => none) = desired.acceleration ∧
      (match desired.acceleration with
      | some a => is_limited a (acceleration_interval E hard actual a).1
          (acceleration_interval E hard actual a).2
      | none => false) = false ∧ non_finite desired.acceleration = false := by
    cases h : desired.acceleration with
    | none => simp [non_finite]
    | some a =>
      rw [h] at ha
      obtain ⟨l, c, n⟩ := finite_inside_spec E _ _ ha
      simp only [clamped, limited] at l c
      exact ⟨c, l, n⟩
  obtain ⟨ca, la, na⟩ := hacc
  have hd : clamp_steps E name hard soft prev actual desired dts = desired := by
    simp only [clamp_steps, cp, cv, ce, cj, ca]
  have hs : sanitation_fires actual desired = false := by
    simp [sanitation_fires, np, nv, na, nj]
  simp only [hd, sanitize_eq_self _ _ hs, hs, clamp_flag, lp, lv, le, lj, la]
  simp

/-- Where C3 holds: for every call of `on_enforce` with `dt > 0`, the returned boolean
is `true` if and only if at least one quantity carried by `desired` has a different
value after the call than before it, or a sanitation branch fired; and when `desired` is finite and
already inside every computed interval, `desired` is unchanged and the call returns
`false`.  The equivalence covers every call whose `std::clamp` calls on the quantities
of `desired` meet the precondition of `std::clamp` (upper bound not below the lower
one), and every call whatsoever where `std::clamp` is the comparison chain; the C++
standard defines no result of `std::clamp` elsewhere. -/
theorem return_flag_fidelity (E : Env) (self : JointSoftLimiter)
    (actual desired : JointControlInterfacesData) (dt : Duration)
    (hard : JointLimits) (hards : List JointLimits) (name : String) (names : List String)
    (hdt : 0 < dt.nanoseconds) (hl : self.joint_limits = hard :: hards)
    (hn : self.joint_names = name :: names) :
    ∃ r, on_enforce E self actual desired dt = some r ∧
      (clamp_calls_defined E name hard (soft_limits_of E self)
          (seed_prev_command self.prev_command actual desired) actual desired
          dt.seconds = true ∨ comparison_clamp E →
        (r.limits_enforced = true ↔
          (r.desired.position ≠ desired.position ∨ r.desired.velocity ≠ desired.velocity ∨
            r.desired.effort ≠ desired.effort ∨
            r.desired.acceleration ≠ desired.acceleration ∨
            r.desired.jerk ≠ desired.jerk ∨
            sanitation_fires actual (clamp_steps E name hard (soft_limits_of E self)
              (seed_prev_command self.prev_command actual desired) actual desired
              dt.seconds) = true))) ∧
      (inside_every_interval E name hard (soft_limits_of E self)
          (seed_prev_command self.prev_command actual desired) actual desired
          dt.seconds = true →
        r.desired = desired ∧ r.limits_enforced = false) :=
  ⟨_, on_enforce_pos E self actual desired dt hard hards name names hdt hl hn,
    enforce_joint_flag_iff E self name hard _ actual desired _,
    enforce_joint_pass_through E self name hard _ actual desired _⟩

/-- The pass-through scenario of the spec: with all limits present and `desired`
at rest, consistent with `prev_command_`, `desired` is unchanged and the call returns
`false`. -/
theorem return_flag_fidelity_witness :
    ∃ r, on_enforce scenario_env { limiter_of all_limits with prev_command := rest_sample }
        rest_sample rest_sample ⟨10000000⟩ = some r ∧
      r.desired = rest_sample ∧ r.limits_enforced = false := by
  obtain ⟨r, hr, _, hpass⟩ :=
    return_flag_fidelity scenario_env { limiter_of all_limits with prev_command := rest_sample }
      rest_sample rest_sample ⟨10000000⟩ all_limits [] "joint1" [] (by decide) rfl rfl
  refine ⟨r, hr, hpass ?_⟩
  norm_num [inside_every_interval, finite_inside, position_interval, position_bounds,
    velocity_interval, velocity_bounds, effort_interval, effort_bounds,
    acceleration_interval, jerk_interval, soft_velocity_envelope, seed_prev_command,
    JointControlInterfacesData.has_data, all_limits, rest_sample, limiter_of, soft_limits_of,
    scenario_env, scenario_position_limits, scenario_velocity_limits,
    scenario_effort_limits, scenario_acceleration_limits, scenario_has_soft_limits,
    scenario_has_soft_position_limits, prev_command_position, act_position, clamp,
    Duration.seconds, Dbl.max, Dbl.min, Dbl.lt, Dbl.le, Dbl.val, Dbl.isfinite, Dbl.add,
    Dbl.sub, Dbl.neg, Dbl.mul, Dbl.isNaN, Dbl.isInf, Dbl.isZero, Dbl.signbit]

/-- The soft velocity envelope of the approach scenario: previous commanded and measured
position 0.4375, soft limits `[-0.5, +0.5]` with `k_position = 16`, velocity limit 2:
`[-2, 1]`. -/
theorem approach_envelope :
    soft_velocity_envelope scenario_env all_limits damped_soft_limits approach_sample
      approach_sample = (Dbl.fin (-2), Dbl.fin 1) := by
  norm_num [soft_velocity_envelope, act_position, prev_command_position, all_limits,
    damped_soft_limits, approach_sample, scenario_env, scenario_has_soft_limits,
    scenario_has_soft_position_limits, clamp, Dbl.neg, Dbl.mul, Dbl.sub, Dbl.add, Dbl.lt,
    Dbl.val, Dbl.isfinite, Dbl.isNaN, Dbl.isInf, Dbl.isZero, Dbl.signbit]

/-- The velocity interval of the approach scenario for a command that carries only the
velocity 1: `[1.4, 1]`. -/
theorem approach_slow_velocity_interval :
    velocity_interval scenario_env "joint1" all_limits damped_soft_limits approach_sample
      approach_sample slow_command (Duration.seconds ⟨10000000⟩) =
      (Dbl.fin (7 / 5), Dbl.fin 1) := by
  simp only [velocity_interval, approach_envelope]
  norm_num [velocity_bounds, all_limits, approach_sample, slow_command, scenario_env,
    scenario_velocity_limits, Duration.seconds, Dbl.max, Dbl.min, Dbl.neg, Dbl.mul, Dbl.sub,
    Dbl.add, Dbl.lt, Dbl.val, Dbl.isfinite, Dbl.isNaN, Dbl.isInf, Dbl.isZero, Dbl.signbit]

/-- C3, at the failing input: hard limits position `[-1, +1]`, velocity 2, acceleration
10; soft limits `[-0.5, +0.5]` with `k_position = 16`; previous command and measurement
at position 0.4375 with velocity 1.5; `desired` carries only the velocity 1; `dt = 0.01`;
`std::clamp` as in the GNU library.  The velocity interval is `[1.4, 1]`, so `is_limited`
is true (1 is below 1.4) while `std::clamp` returns `min(max(1, 1.4), 1) = 1`: the call
returns `true`, `desired` comes back unchanged and no sanitation branch fires. -/
theorem flag_without_change :
    velocity_interval scenario_env "joint1" all_limits damped_soft_limits approach_sample
        approach_sample slow_command (Duration.seconds ⟨10000000⟩) =
        (Dbl.fin (7 / 5), Dbl.fin 1) ∧
    is_limited (Dbl.fin 1) (Dbl.fin (7 / 5)) (Dbl.fin 1) = true ∧
    clamp scenario_env (Dbl.fin 1) (Dbl.fin (7 / 5)) (Dbl.fin 1) = Dbl.fin 1 ∧
    sanitation_fires approach_sample slow_command = false ∧
    (on_enforce scenario_env damped_limiter approach_sample slow_command ⟨10000000⟩).map
        (fun r => (r.desired, r.limits_enforced)) = some (slow_command, true) := by
  refine ⟨approach_slow_velocity_interval, ?_, ?_, ?_, ?_⟩
  · norm_num [is_limited, Dbl.lt, Dbl.val]
  · norm_num [clamp, scenario_env, Dbl.max, Dbl.min, Dbl.lt, Dbl.val]
  · simp [sanitation_fires, non_finite, slow_command, Dbl.isfinite]
  · rw [on_enforce_pos scenario_env _ _ _ _ all_limits [] "joint1" []
      (by decide) rfl rfl]
    have hseed : seed_prev_command damped_limiter.prev_command approach_sample slow_command =
        approach_sample := rfl
    have hsoft : soft_limits_of scenario_env damped_limiter = damped_soft_limits := rfl
    simp only [enforce_joint, hseed, hsoft, clamp_flag, clamp_steps, approach_slow_velocity_interval, effort_interval]
    norm_num [sanitation_fires, sanitize, limited, clamped, non_finite, clamp, is_limited,
      slow_command, scenario_env, Dbl.max, Dbl.min, Dbl.lt, Dbl.val, Dbl.isfinite]

/-! ### C4: idempotence -/

/-- Recovery scenario, either call: with the measured position 0.75 above the soft upper
limit, both ends of the soft velocity envelope are minus one degree per second.  On the
second call the previous command sits on the soft limit, `-k_position * 0.0` is the
negative zero, and `std::copysign` takes its sign. -/
theorem recovery_envelope :
    soft_velocity_envelope scenario_env cushion_limits cushion_soft_limits outside_soft
        outside_soft = (Dbl.neg soft_limit_reach_velocity, Dbl.neg soft_limit_reach_velocity) ∧
      soft_velocity_envelope scenario_env cushion_limits cushion_soft_limits at_soft
        outside_soft = (Dbl.neg soft_limit_reach_velocity, Dbl.neg soft_limit_reach_velocity) := by
  rw [soft_limit_reach_velocity_eq]
  constructor <;>
  norm_num [soft_velocity_envelope, act_position, prev_command_position, cushion_limits,
    no_limits, cushion_soft_limits, outside_soft, at_soft, scenario_env,
    scenario_has_soft_limits, scenario_has_soft_position_limits, clamp, Dbl.copysign,
    Dbl.signbit, Dbl.neg, Dbl.mul, Dbl.sub, Dbl.add, Dbl.lt, Dbl.val, Dbl.isfinite,
    Dbl.isNaN, Dbl.isInf, Dbl.isZero, soft_limit_reach_velocity_eq, M_PI]

/-- Recovery scenario, `dt = 0.1`: the position interval of the first call is the soft
upper limit alone, that of the second call lies a recovery step below it. -/
theorem recovery_position_interval :
    position_interval scenario_env "joint1" cushion_limits cushion_soft_limits outside_soft
        outside_soft (Duration.seconds ⟨100000000⟩) = (Dbl.fin (1 / 2), Dbl.fin (1 / 2)) ∧
      position_interval scenario_env "joint1" cushion_limits cushion_soft_limits at_soft
        outside_soft (Duration.seconds ⟨100000000⟩) =
        (Dbl.fin (1 / 2 - M_PI / 180 * (1 / 10)), Dbl.fin (1 / 2 - M_PI / 180 * (1 / 10))) := by
  rw [position_interval, position_interval, recovery_envelope.1, recovery_envelope.2,
    soft_limit_reach_velocity_eq]
  constructor <;>
  norm_num [position_bounds, prev_command_position, cushion_limits, no_limits,
    cushion_soft_limits, outside_soft, at_soft, scenario_env,
    scenario_has_soft_position_limits, scenario_position_limits, clamp, Duration.seconds,
    Dbl.max, Dbl.min, Dbl.signbit, Dbl.neg, Dbl.mul, Dbl.sub, Dbl.add, Dbl.lt, Dbl.val,
    Dbl.isfinite, Dbl.isNaN, Dbl.isInf, Dbl.isZero, M_PI]

/-- Why the amended C4 leaves joints with velocity limits out: in the recovery scenario
(hard position `[-1, +1]`, velocity 4, soft `[-0.5, +0.5]`, `k_position = 16`, measured
and previously commanded position 0.75, `dt = 0.1`), with every `std::clamp` call inside
its precondition and no sanitation, the first call brings `desired.position = 0.75` to
the soft limit 0.5, and the second call moves it one recovery step further and returns
`true` again. -/
theorem recovery_step_repeats :
    ((on_enforce scenario_env cushion_position_limiter outside_soft outside_soft
        ⟨100000000⟩).bind
      (fun r1 =>
        (on_enforce scenario_env r1.limiter outside_soft r1.desired ⟨100000000⟩).map
        (fun r2 => (r1.desired.position, r2.limits_enforced, r2.desired.position)))) =
      some (some (Dbl.fin (1 / 2)), true, some (Dbl.fin (1 / 2 - M_PI / 180 * (1 / 10)))) := by
  have step1 : enforce_joint scenario_env cushion_position_limiter "joint1" cushion_limits
        cushion_soft_limits outside_soft outside_soft (Duration.seconds ⟨100000000⟩) =
      { limits_enforced := true, desired := at_soft,
        limiter := { cushion_position_limiter with prev_command := at_soft } } := by
    have hseed : seed_prev_command cushion_position_limiter.prev_command outside_soft
        outside_soft = outside_soft := seed_prev_command_of_has_data _ _ _ rfl
    simp only [enforce_joint, clamp_flag, clamp_steps, hseed, recovery_position_interval.1]
    norm_num [sanitation_fires, sanitize, limited, clamped, non_finite, clamp, is_limited,
      update_prev_command, outside_soft, at_soft, cushion_position_limiter, Dbl.lt, Dbl.val,
      Dbl.isfinite]
  have step2 :
      (enforce_joint scenario_env { cushion_position_limiter with prev_command := at_soft }
          "joint1" cushion_limits cushion_soft_limits outside_soft at_soft
          (Duration.seconds ⟨100000000⟩)).limits_enforced = true ∧
      (enforce_joint scenario_env { cushion_position_limiter with prev_command := at_soft }
          "joint1" cushion_limits cushion_soft_limits outside_soft at_soft
          (Duration.seconds ⟨100000000⟩)).desired.position =
        some (Dbl.fin (1 / 2 - M_PI / 180 * (1 / 10))) := by
    have hseed : seed_prev_command at_soft outside_soft at_soft = at_soft :=
      seed_prev_command_of_has_data _ _ _ rfl
    simp only [enforce_joint, clamp_flag, clamp_steps, hseed, recovery_position_interval.2]
    norm_num [sanitation_fires, sanitize, limited, clamped, non_finite, clamp, is_limited,
      update_prev_command, outside_soft, at_soft, cushion_position_limiter, Dbl.lt, Dbl.val,
      Dbl.isfinite, M_PI]
  have hsoft : soft_limits_of scenario_env cushion_position_limiter = cushion_soft_limits :=
    rfl
  rw [on_enforce_pos scenario_env _ _ _ _ cushion_limits [] "joint1" [] (by decide) rfl rfl,
    hsoft, step1]
  simp only [Option.some_bind]
  rw [on_enforce_pos scenario_env _ _ _ _ cushion_limits [] "joint1" [] (by decide) rfl rfl]
  have hsoft2 : soft_limits_of scenario_env
      { cushion_position_limiter with prev_command := at_soft } = cushion_soft_limits := rfl
  rw [hsoft2]
  simp only [Option.map_some', step2.1, step2.2]
  rfl

/-! ### C5: sanitation of non-finite commands -/

/-- C5 (amended): for every call of `on_enforce` with `dt > 0`, if after the clamping
steps the position is non-finite and `actual` carries a position, or the velocity, the
acceleration or the jerk is non-finite, then the call returns `true`; such a position is
replaced by `actual.position`, and a non-finite velocity, acceleration or jerk by `0.0`.
When `actual` carries no position, the position is left as the clamping steps wrote it.
(Nothing is said of a non-finite effort.) -/
theorem sanitation_replaces_non_finite (E : Env) (self : JointSoftLimiter)
    (actual desired : JointControlInterfacesData) (dt : Duration)
    (hard : JointLimits) (hards : List JointLimits) (name : String) (names : List String)
    (hdt : 0 < dt.nanoseconds) (hl : self.joint_limits = hard :: hards)
    (hn : self.joint_names = name :: names) :
    ∃ r, on_enforce E self actual desired dt = some r ∧
      (((non_finite (clamp_steps E name hard (soft_limits_of E self)
            (seed_prev_command self.prev_command actual desired) actual desired
            dt.seconds).position = true ∧ actual.position.isSome = true) ∨
        non_finite (clamp_steps E name hard (soft_limits_of E self)
            (seed_prev_command self.prev_command actual desired) actual desired
            dt.seconds).velocity = true ∨
        non_finite (clamp_steps E name hard (soft_limits_of E self)
            (seed_prev_command self.prev_command actual desired) actual desired
            dt.seconds).acceleration = true ∨
        non_finite (clamp_steps E name hard (soft_limits_of E self)
            (seed_prev_command self.prev_command actual desired) actual desired
            dt.seconds).jerk = true) → r.limits_enforced = true) ∧
      (non_finite (clamp_steps E name hard (soft_limits_of E self)
            (seed_prev_command self.prev_command actual desired) actual desired
            dt.seconds).position = true → actual.position.isSome = true →
        r.desired.position = actual.position) ∧
      (non_finite (clamp_steps E name hard (soft_limits_of E self)
            (seed_prev_command self.prev_command actual desired) actual desired
            dt.seconds).velocity = true → r.desired.velocity = some (Dbl.fin 0)) ∧
      (non_finite (clamp_steps E name hard (soft_limits_of E self)
            (seed_prev_command self.prev_command actual desired) actual desired
            dt.seconds).acceleration = true → r.desired.acceleration = some (Dbl.fin 0)) ∧
      (non_finite (clamp_steps E name hard (soft_limits_of E self)
            (seed_prev_command self.prev_command actual desired) actual desired
            dt.seconds).jerk = true → r.desired.jerk = some (Dbl.fin 0)) ∧
      (actual.position = none →
        r.desired.position = (clamp_steps E name hard (soft_limits_of E self)
            (seed_prev_command self.prev_command actual desired) actual desired
            dt.seconds).position) := by
  refine ⟨_, on_enforce_pos E self actual desired dt hard hards name names hdt hl hn, ?_, ?_,
    ?_, ?_, ?_, ?_⟩
  · intro h
    simp only [enforce_joint, sanitation_fires, Bool.or_eq_true, Bool.and_eq_true]
    rcases h with h | h | h | h
    · exact Or.inl (Or.inl (Or.inl (Or.inl h)))
    · exact Or.inl (Or.inl (Or.inl (Or.inr h)))
    · exact Or.inl (Or.inl (Or.inr h))
    · exact Or.inl (Or.inr h)
  · intro h1 h2
    simp [enforce_joint, sanitize, h1, h2]
  · intro h
    simp [enforce_joint, sanitize, h]
  · intro h
    simp [enforce_joint, sanitize, h]
  · intro h
    simp [enforce_joint, sanitize, h]
  · intro h
    simp [enforce_joint, sanitize, h]

/-- C5, the scenario of the spec: `desired.velocity = NaN` with `actual.position = 0.0`
gives `desired.velocity = 0.0` and the return value `true`. -/
theorem sanitation_replaces_non_finite_witness :
    ∃ r, on_enforce scenario_env (limiter_of no_limits)
        { empty_sample with position := some (Dbl.fin 0) }
        { empty_sample with velocity := some Dbl.nan } ⟨10000000⟩ = some r ∧
      r.limits_enforced = true ∧ r.desired.velocity = some (Dbl.fin 0) := by
  obtain ⟨r, hr, h1, _, h3, _, _, _⟩ :=
    sanitation_replaces_non_finite scenario_env (limiter_of no_limits)
      { empty_sample with position := some (Dbl.fin 0) }
      { empty_sample with velocity := some Dbl.nan } ⟨10000000⟩ no_limits [] "joint1" []
      (by decide) rfl rfl
  have hv : non_finite (clamp_steps scenario_env "joint1" no_limits
      (soft_limits_of scenario_env (limiter_of no_limits))
      (seed_prev_command (limiter_of no_limits).prev_command
        { empty_sample with position := some (Dbl.fin 0) }
        { empty_sample with velocity := some Dbl.nan })
      { empty_sample with position := some (Dbl.fin 0) }
      { empty_sample with velocity := some Dbl.nan }
      (Duration.seconds ⟨10000000⟩)).velocity = true := by
    simp [clamp_steps, clamped, non_finite, clamp, velocity_interval, velocity_bounds,
      soft_velocity_envelope, no_limits, empty_sample, scenario_env, scenario_velocity_limits,
      Dbl.max, Dbl.min, Dbl.lt, Dbl.isfinite, limiter_of, seed_prev_command,
      JointControlInterfacesData.has_data]
  exact ⟨r, hr, h1 (Or.inr (Or.inl hv)), h3 hv⟩

/-- C5 as stated fails: with hard position limits `[-1, +1]`, `dt = 0.01` and an `actual`
that carries no position, `desired.position = NaN` is still NaN after the clamping
steps, stays NaN, and the call returns `false`; and `desired.effort = NaN`, with
`actual.position = 0.0`, stays NaN while the call returns `false`. -/
theorem non_finite_not_always_flagged :
    (clamp_steps scenario_env "joint1" position_limits_only
        (soft_limits_of scenario_env (limiter_of position_limits_only))
        (seed_prev_command empty_sample empty_sample
          { empty_sample with position := some Dbl.nan })
        empty_sample { empty_sample with position := some Dbl.nan }
        (Duration.seconds ⟨10000000⟩)).position = some Dbl.nan ∧
      (on_enforce scenario_env (limiter_of position_limits_only) empty_sample
        { empty_sample with position := some Dbl.nan } ⟨10000000⟩).map
        (fun r => (r.limits_enforced, r.desired.position)) = some (false, some Dbl.nan) ∧
      (on_enforce scenario_env (limiter_of position_limits_only)
        { empty_sample with position := some (Dbl.fin 0) }
        { empty_sample with effort := some Dbl.nan } ⟨10000000⟩).map
        (fun r => (r.limits_enforced, r.desired.effort)) = some (false, some Dbl.nan) := by
  refine ⟨?_, ?_, ?_⟩
  · simp [clamp_steps, clamped, clamp, position_interval, position_bounds,
      soft_velocity_envelope, position_limits_only, no_limits, empty_sample, scenario_env,
      scenario_position_limits, scenario_has_soft_position_limits, soft_limits_of,
      limiter_of, Dbl.max, Dbl.min, Dbl.lt, Dbl.val]
  · rw [on_enforce_pos scenario_env _ _ _ _ position_limits_only [] "joint1" []
      (by decide) rfl rfl]
    simp [enforce_joint, clamp_flag, clamp_steps, sanitation_fires, sanitize, limited,
      clamped, non_finite, clamp, is_limited, position_interval, position_bounds,
      soft_velocity_envelope, position_limits_only, no_limits, empty_sample, scenario_env,
      scenario_position_limits, scenario_has_soft_position_limits, soft_limits_of,
      limiter_of, Dbl.max, Dbl.min, Dbl.lt, Dbl.val, Dbl.isfinite]
  · rw [on_enforce_pos scenario_env _ _ _ _ position_limits_only [] "joint1" []
      (by decide) rfl rfl]
    simp [enforce_joint, clamp_flag, clamp_steps, sanitation_fires, sanitize, limited,
      clamped, non_finite, clamp, is_limited, effort_interval, effort_bounds,
      position_limits_only, no_limits, empty_sample, scenario_env,
      scenario_effort_limits, soft_limits_of,
      limiter_of, Dbl.max, Dbl.min, Dbl.lt, Dbl.val, Dbl.isfinite]

/-! ### C6: the position clamp -/

/-- C6 (amended): for a joint with active hard position limits `[min_position,
max_position]`, no velocity limits and no soft limits (so that `compute_position_limits`
returns the hard interval), and any `dt > 0`, `on_enforce` with a finite
`desired.position` `p` writes back exactly `clamp(p, min_position, max_position)`; and
when `desired` carries no other quantity, it returns `true` exactly when `p` was outside
`[min_position, max_position]`. -/
theorem position_clamp (E : Env) (self : JointSoftLimiter)
    (actual desired : JointControlInterfacesData) (dt : Duration)
    (hard : JointLimits) (hards : List JointLimits) (name : String) (names : List String)
    (a b : ℚ) (p : Dbl)
    (hdt : 0 < dt.nanoseconds) (hl : self.joint_limits = hard :: hards)
    (hn : self.joint_names = name :: names)
    (hpos : hard.has_position_limits = true) (hvel : hard.has_velocity_limits = false)
    (hsoft : E.has_soft_position_limits (soft_limits_of E self) = false)
    (hsolver : hard.has_position_limits = true → hard.has_velocity_limits = false →
      ∀ av ap pp, E.compute_position_limits name hard av ap pp dt.seconds =
        { lower_limit := hard.min_position, upper_limit := hard.max_position })
    (hmin : hard.min_position = Dbl.fin a) (hmax : hard.max_position = Dbl.fin b)
    (hab : a ≤ b) (hp : desired.position = some p) (hfin : p.isfinite = true) :
    ∃ r, on_enforce E self actual desired dt = some r ∧
      r.desired.position =
        some (if Dbl.lt p hard.min_position then hard.min_position
          else if Dbl.lt hard.max_position p then hard.max_position else p) ∧
      (desired.velocity = none → desired.effort = none → desired.acceleration = none →
        desired.jerk = none →
        (r.limits_enforced = true ↔
          (Dbl.lt p hard.min_position = true ∨ Dbl.lt hard.max_position p = true))) := by
  refine ⟨_, on_enforce_pos E self actual desired dt hard hards name names hdt hl hn, ?_, ?_⟩
  · have hba : Dbl.lt (Dbl.fin b) (Dbl.fin a) = false := by
      simp [Dbl.lt, Dbl.val, hab]
    have hiv : position_interval E name hard (soft_limits_of E self)
        (seed_prev_command self.prev_command actual desired) actual dt.seconds =
        (Dbl.fin a, Dbl.fin b) := by
      simp [position_interval, position_bounds, hsolver hpos hvel, hvel, hsoft, hmin, hmax,
        Dbl.max, Dbl.min, Dbl.lt]
    simp only [enforce_joint, sanitize, clamp_steps, hiv, hp, clamped, clamp, hba, hmin, hmax]
    cases p <;> simp [Dbl.isfinite] at hfin <;>
      simp [non_finite, Dbl.isfinite, Dbl.lt, Dbl.val] <;>
      split_ifs <;> simp [Dbl.isfinite]
  · intro h1 h2 h3 h4
    have hiv : position_interval E name hard (soft_limits_of E self)
        (seed_prev_command self.prev_command actual desired) actual dt.seconds =
        (Dbl.fin a, Dbl.fin b) := by
      simp [position_interval, position_bounds, hsolver hpos hvel, hvel, hsoft, hmin, hmax,
        Dbl.max, Dbl.min, Dbl.lt]
    have hba : Dbl.lt (Dbl.fin b) (Dbl.fin a) = false := by
      simp [Dbl.lt, Dbl.val, hab]
    simp only [enforce_joint, sanitation_fires, sanitize, clamp_flag, clamp_steps, hiv, hp,
      h1, h2, h3, h4, clamped, limited, clamp, hba, hmin, hmax, non_finite, is_limited]
    cases p <;> simp [Dbl.isfinite] at hfin <;>
      simp [Dbl.isfinite, Dbl.lt, Dbl.val] <;>
      split_ifs <;> simp_all [Dbl.isfinite]

/-- C6, the scenario of the spec: limits `[-1, +1]`, `actual.position = 0.9`,
`desired.position = 1.5` and `dt = 0.01` give `desired.position = 1.0` and the return
value `true`. -/
theorem position_clamp_witness :
    ∃ r, on_enforce scenario_env (limiter_of position_limits_only)
        { empty_sample with position := some (Dbl.fin (9 / 10)) }
        { empty_sample with position := some (Dbl.fin (3 / 2)) } ⟨10000000⟩ = some r ∧
      r.desired.position = some (Dbl.fin 1) ∧ r.limits_enforced = true := by
  obtain ⟨r, hr, hpos, hflag⟩ :=
    position_clamp scenario_env (limiter_of position_limits_only)
      { empty_sample with position := some (Dbl.fin (9 / 10)) }
      { empty_sample with position := some (Dbl.fin (3 / 2)) } ⟨10000000⟩
      position_limits_only [] "joint1" [] (-1) 1 (Dbl.fin (3 / 2))
      (by decide) rfl rfl rfl rfl
      (by simp [scenario_env, soft_limits_of, limiter_of, scenario_has_soft_position_limits,
        Dbl.lt])
      (by intros; simp [scenario_env, scenario_position_limits, position_limits_only,
        no_limits])
      rfl rfl (by norm_num) rfl rfl
  have h1 : Dbl.lt (Dbl.fin (3 / 2)) position_limits_only.min_position = false := by
    simp [position_limits_only, Dbl.lt, Dbl.val]; norm_num
  have h2 : Dbl.lt position_limits_only.max_position (Dbl.fin (3 / 2)) = true := by
    simp [position_limits_only, Dbl.lt, Dbl.val]; norm_num
  refine ⟨r, hr, ?_, (hflag rfl rfl rfl rfl).2 (Or.inr h2)⟩
  rw [hpos, h1, h2]
  simp [position_limits_only]

/-- C6 as stated fails on the return value: with limits `[-1, +1]` and `dt = 0.01`, a
`desired` that carries the position `0.0`, inside the limits, and a velocity NaN leaves
the position at `0.0` and returns `true`. -/
theorem position_inside_yet_flagged :
    Dbl.lt (Dbl.fin 0) position_limits_only.min_position = false ∧
      Dbl.lt position_limits_only.max_position (Dbl.fin 0) = false ∧
      (on_enforce scenario_env (limiter_of position_limits_only)
        { empty_sample with position := some (Dbl.fin 0) }
        { empty_sample with position := some (Dbl.fin 0), velocity := some Dbl.nan }
        ⟨10000000⟩).map (fun r => (r.limits_enforced, r.desired.position)) =
        some (true, some (Dbl.fin 0)) := by
  refine ⟨by simp [position_limits_only, Dbl.lt, Dbl.val],
    by simp [position_limits_only, Dbl.lt, Dbl.val], ?_⟩
  rw [on_enforce_pos scenario_env _ _ _ _ position_limits_only [] "joint1" []
    (by decide) rfl rfl]
  norm_num [enforce_joint, clamp_flag, clamp_steps, sanitation_fires, sanitize, limited,
    clamped, non_finite, clamp, is_limited, position_interval, position_bounds,
    velocity_interval, velocity_bounds, soft_velocity_envelope,
    position_limits_only, no_limits, empty_sample, scenario_env, seed_prev_command,
    JointControlInterfacesData.has_data,
    scenario_position_limits, scenario_velocity_limits, scenario_has_soft_position_limits,
    soft_limits_of, limiter_of, Dbl.max, Dbl.min, Dbl.lt, Dbl.val, Dbl.isfinite]

/-! ### C7: rate boundedness -/

/-- Where C7 holds: for every call of `on_enforce` with `dt > 0` on a joint with active
velocity and acceleration limits, where `prev_command_` carries a finite velocity
`v_prev` and `desired` a velocity that is not NaN, if the velocity interval handed to
`std::clamp` is proper and `compute_velocity_limits` returns bounds within
`v_prev ± max_acceleration * dt`, then the velocity `v_out` written back is finite and
satisfies `|v_out - v_prev| <= max_acceleration * dt`. -/
theorem rate_boundedness (E : Env) (self : JointSoftLimiter)
    (actual desired : JointControlInterfacesData) (dt : Duration)
    (hard : JointLimits) (hards : List JointLimits) (name : String) (names : List String)
    (v vp : Dbl) (a : ℚ)
    (hdt : 0 < dt.nanoseconds) (hl : self.joint_limits = hard :: hards)
    (hn : self.joint_names = name :: names)
    (hvel : hard.has_velocity_limits = true) (hacc : hard.has_acceleration_limits = true)
    (ha : hard.max_acceleration = Dbl.fin a)
    (hprev : self.prev_command.velocity = some vp) (hvp : vp.isfinite = true)
    (hv : desired.velocity = some v) (hnan : v ≠ Dbl.nan)
    (hiv : proper (velocity_interval E name hard (soft_limits_of E self) self.prev_command
      actual desired dt.seconds) = true)
    (hs : hard.has_velocity_limits = true → hard.has_acceleration_limits = true →
      solver_within (E.compute_velocity_limits name hard v actual.position (some vp)
        dt.seconds) (Dbl.sub vp (Dbl.mul hard.max_acceleration dt.seconds))
        (Dbl.add vp (Dbl.mul hard.max_acceleration dt.seconds)) = true) :
    ∃ r x, on_enforce E self actual desired dt = some r ∧
      r.desired.velocity = some x ∧ x.isfinite = true ∧
      |x.val - vp.val| ≤ a * ((dt.nanoseconds : ℚ) / 1000000000) := by
  have hdata : self.prev_command.has_data = true := by
    simp [JointControlInterfacesData.has_data, hprev]
  have hseed := seed_prev_command_of_has_data self.prev_command actual desired hdata
  have hs' := hs hvel hacc
  simp only [solver_within, Bool.and_eq_true] at hs'
  have hne := Dbl.le_ne_nan hiv
  have hq : not_nan desired.velocity = true := by
    cases v <;> simp [hv, not_nan, Dbl.isNaN] at hnan ⊢
  have hw := clamped_within E desired.velocity _ _ _ hq hiv
    (by
      simp only [hv, velocity_interval, velocity_bounds, hprev] at hne ⊢
      exact Dbl.le_max_of_le_right hs'.1 hne.1)
    (by
      simp only [hv, velocity_interval, velocity_bounds, hprev] at hne ⊢
      exact Dbl.min_le_of_le_right hs'.2 hne.2)
  have hd : (Duration.seconds dt).isfinite = true := rfl
  have hdv : (Duration.seconds dt).val = (dt.nanoseconds : ℚ) / 1000000000 := rfl
  have hm := Dbl.mul_finite (x := hard.max_acceleration) (y := dt.seconds)
    (by rw [ha]; rfl) hd
  have hlo := Dbl.sub_finite hvp hm.1
  have hhi := Dbl.add_finite hvp hm.1
  rw [hv] at hw
  simp only [clamped, within, Bool.and_eq_true] at hw
  have hx := Dbl.isfinite_of_between hlo.1 hhi.1 hw.1 hw.2
  have h1 := (Dbl.le_iff_val hlo.1 hx).1 hw.1
  have h2 := (Dbl.le_iff_val hx hhi.1).1 hw.2
  rw [hlo.2, hm.2, hdv, ha] at h1
  rw [hhi.2, hm.2, hdv, ha] at h2
  simp only [Dbl.val_fin] at h1 h2
  refine ⟨_, _, on_enforce_pos E self actual desired dt hard hards name names hdt hl hn, ?_,
    hx, ?_⟩
  · simp only [enforce_joint, sanitize, clamp_steps, hseed, hv, clamped, non_finite, hx]
    simp
  · rw [abs_le]
    constructor <;> linarith

/-- The velocity-ramp scenario of the spec: `max_velocity = 2`,
`max_acceleration = 10`, `prev_command.velocity = 0`, `desired.velocity = 5` and
`dt = 0.01` give `desired.velocity = 0.1` and the return value `true`, within the rate
bound. -/
theorem rate_boundedness_witness :
    (∃ r x, on_enforce scenario_env
        { limiter_of velocity_ramp_limits with
          prev_command := { empty_sample with velocity := some (Dbl.fin 0) } }
        empty_sample { empty_sample with velocity := some (Dbl.fin 5) } ⟨10000000⟩ = some r ∧
      r.desired.velocity = some x ∧ x.isfinite = true ∧
      |x.val - (Dbl.fin 0).val| ≤ 10 * (((10000000 : Int) : ℚ) / 1000000000)) ∧
    (on_enforce scenario_env
        { limiter_of velocity_ramp_limits with
          prev_command := { empty_sample with velocity := some (Dbl.fin 0) } }
        empty_sample { empty_sample with velocity := some (Dbl.fin 5) } ⟨10000000⟩).map
        (fun r => (r.desired.velocity, r.limits_enforced)) =
      some (some (Dbl.fin (1 / 10)), true) := by
  constructor
  · exact rate_boundedness scenario_env
      { limiter_of velocity_ramp_limits with
        prev_command := { empty_sample with velocity := some (Dbl.fin 0) } }
      empty_sample { empty_sample with velocity := some (Dbl.fin 5) } ⟨10000000⟩
      velocity_ramp_limits [] "joint1" [] (Dbl.fin 5) (Dbl.fin 0) 10
      (by decide) rfl rfl rfl rfl rfl rfl rfl rfl (by simp)
      (by
        norm_num [proper, velocity_interval, velocity_bounds, soft_velocity_envelope,
          velocity_ramp_limits, no_limits, empty_sample, limiter_of, soft_limits_of,
          scenario_env, scenario_velocity_limits, Duration.seconds,
          Dbl.max, Dbl.min, Dbl.lt, Dbl.le, Dbl.val, Dbl.neg, Dbl.add, Dbl.sub, Dbl.mul,
          Dbl.isNaN, Dbl.isInf, Dbl.isZero, Dbl.signbit, Dbl.isfinite])
      (by
        intro _ _
        norm_num [solver_within, velocity_ramp_limits, no_limits, empty_sample,
          scenario_env, scenario_velocity_limits, Duration.seconds,
          Dbl.max, Dbl.min, Dbl.lt, Dbl.le, Dbl.val, Dbl.neg, Dbl.add, Dbl.sub, Dbl.mul,
          Dbl.isNaN, Dbl.isInf, Dbl.isZero, Dbl.signbit, Dbl.isfinite])
  · rw [on_enforce_pos scenario_env _ _ _ _ velocity_ramp_limits [] "joint1" []
      (by decide) rfl rfl]
    norm_num [enforce_joint, clamp_flag, clamp_steps, sanitation_fires, sanitize, limited,
      clamped, non_finite, clamp, is_limited, velocity_interval, velocity_bounds,
      soft_velocity_envelope, velocity_ramp_limits, no_limits, empty_sample, scenario_env,
      seed_prev_command, JointControlInterfacesData.has_data, scenario_velocity_limits,
      soft_limits_of, limiter_of, Duration.seconds,
      Dbl.max, Dbl.min, Dbl.lt, Dbl.le, Dbl.val, Dbl.neg, Dbl.add, Dbl.sub, Dbl.mul,
      Dbl.isNaN, Dbl.isInf, Dbl.isZero, Dbl.signbit, Dbl.isfinite]

/-- C7 and the sanitation of lines 234-238: with `max_velocity = 2`,
`max_acceleration = 10`, `dt = 0.01` and `prev_command.velocity = 1`, a
`desired.velocity = NaN` is written back as `0.0`, at distance 1 from the previous
command, above `max_acceleration * dt = 0.1`. -/
theorem sanitized_velocity_breaks_rate_bound :
    (on_enforce scenario_env
        { limiter_of velocity_ramp_limits with
          prev_command := { empty_sample with velocity := some (Dbl.fin 1) } }
        empty_sample { empty_sample with velocity := some Dbl.nan } ⟨10000000⟩).map
        (fun r => r.desired.velocity) = some (some (Dbl.fin 0)) ∧
      ¬ (|(Dbl.fin 0).val - (Dbl.fin 1).val| ≤ 10 * (((10000000 : Int) : ℚ) / 1000000000)) := by
  constructor
  · rw [on_enforce_pos scenario_env _ _ _ _ velocity_ramp_limits [] "joint1" []
      (by decide) rfl rfl]
    norm_num [enforce_joint, clamp_flag, clamp_steps, sanitation_fires, sanitize, limited,
      clamped, non_finite, clamp, is_limited, velocity_interval, velocity_bounds,
      soft_velocity_envelope, velocity_ramp_limits, no_limits, empty_sample, scenario_env,
      seed_prev_command, JointControlInterfacesData.has_data, scenario_velocity_limits,
      soft_limits_of, limiter_of, Duration.seconds,
      Dbl.max, Dbl.min, Dbl.lt, Dbl.le, Dbl.val, Dbl.neg, Dbl.add, Dbl.sub, Dbl.mul,
      Dbl.isNaN, Dbl.isInf, Dbl.isZero, Dbl.signbit, Dbl.isfinite]
  · norm_num [Dbl.val]

/-- C7, at the failing input: hard limits velocity 2 and acceleration 10 (both active),
`prev_command.velocity = 0`, a measured velocity -0.5, `desired.velocity = 0`,
`dt = 0.01`.  `compute_velocity_limits` returns `[-0.1, 0.1]`, lines 167-174 intersect it
with `[-0.6, -0.4]` by `std::max` and `std::min`, the velocity interval handed to
`std::clamp` is `[-0.1, -0.4]`, and the velocity comes back as -0.4, at distance 0.4 from
the previous command, above `max_acceleration * dt = 0.1`, with the `std::clamp` of the
GNU library and with that of the LLVM library alike. -/
theorem measured_velocity_breaks_rate_bound :
    ramp_limiter.prev_command.velocity = some (Dbl.fin 0) ∧
    scenario_env.compute_velocity_limits "joint1" velocity_ramp_limits (Dbl.fin 0) none
        (some (Dbl.fin 0)) (Duration.seconds ⟨10000000⟩) =
        { lower_limit := Dbl.fin (-1 / 10), upper_limit := Dbl.fin (1 / 10) } ∧
    velocity_interval scenario_env "joint1" velocity_ramp_limits
        scenario_env.default_soft_joint_limits stop_command reversing_state stop_command
        (Duration.seconds ⟨10000000⟩) = (Dbl.fin (-1 / 10), Dbl.fin (-2 / 5)) ∧
    (on_enforce scenario_env ramp_limiter reversing_state stop_command ⟨10000000⟩).map
        (fun r => (r.desired.velocity, r.limits_enforced)) =
        some (some (Dbl.fin (-2 / 5)), true) ∧
    (on_enforce chain_env ramp_limiter reversing_state stop_command ⟨10000000⟩).map
        (fun r => (r.desired.velocity, r.limits_enforced)) =
        some (some (Dbl.fin (-2 / 5)), true) ∧
    ¬ (|(Dbl.fin (-2 / 5)).val - (Dbl.fin 0).val| ≤
        10 * (((10000000 : Int) : ℚ) / 1000000000)) := by
  refine ⟨rfl, ?_, ?_, ?_, ?_, ?_⟩
  · norm_num [velocity_ramp_limits, no_limits, scenario_env, scenario_velocity_limits,
      Duration.seconds, Dbl.max, Dbl.min, Dbl.lt, Dbl.le, Dbl.val, Dbl.neg, Dbl.add, Dbl.sub,
      Dbl.mul, Dbl.isNaN, Dbl.isInf, Dbl.isZero, Dbl.signbit, Dbl.isfinite]
  · norm_num [velocity_interval, velocity_bounds, soft_velocity_envelope,
      velocity_ramp_limits, no_limits, reversing_state, stop_command,
      scenario_env, scenario_velocity_limits, Duration.seconds,
      Dbl.max, Dbl.min, Dbl.lt, Dbl.le, Dbl.val, Dbl.neg, Dbl.add, Dbl.sub, Dbl.mul,
      Dbl.isNaN, Dbl.isInf, Dbl.isZero, Dbl.signbit, Dbl.isfinite]
  · rw [on_enforce_pos scenario_env _ _ _ _ velocity_ramp_limits [] "joint1" []
      (by decide) rfl rfl]
    norm_num [enforce_joint, clamp_flag, clamp_steps, sanitation_fires, sanitize, limited,
      clamped, non_finite, clamp, is_limited, velocity_interval, velocity_bounds,
      soft_velocity_envelope, velocity_ramp_limits, no_limits, ramp_limiter,
      reversing_state, stop_command, scenario_env,
      seed_prev_command, JointControlInterfacesData.has_data, scenario_velocity_limits,
      soft_limits_of, Duration.seconds,
      Dbl.max, Dbl.min, Dbl.lt, Dbl.le, Dbl.val, Dbl.neg, Dbl.add, Dbl.sub, Dbl.mul,
      Dbl.isNaN, Dbl.isInf, Dbl.isZero, Dbl.signbit, Dbl.isfinite]
  · rw [on_enforce_pos chain_env _ _ _ _ velocity_ramp_limits [] "joint1" []
      (by decide) rfl rfl]
    norm_num [enforce_joint, clamp_flag, clamp_steps, sanitation_fires, sanitize, limited,
      clamped, non_finite, clamp, is_limited, velocity_interval, velocity_bounds,
      soft_velocity_envelope, velocity_ramp_limits, no_limits, ramp_limiter,
      reversing_state, stop_command, chain_env, scenario_env,
      seed_prev_command, JointControlInterfacesData.has_data, scenario_velocity_limits,
      soft_limits_of, Duration.seconds,
      Dbl.max, Dbl.min, Dbl.lt, Dbl.le, Dbl.val, Dbl.neg, Dbl.add, Dbl.sub, Dbl.mul,
      Dbl.isNaN, Dbl.isInf, Dbl.isZero, Dbl.signbit, Dbl.isfinite]
  · norm_num [Dbl.val, abs_le]

/-! ### C8: the soft-cushion bound -/

/-- `std::copysign` of one degree per second is at most one degree per second. -/
theorem copysign_reach_le (b : Bool) (x : Dbl) :
    Dbl.le (Dbl.copysign b soft_limit_reach_velocity x) soft_limit_reach_velocity = true := by
  rw [soft_limit_reach_velocity_eq]
  unfold Dbl.copysign
  split_ifs <;> norm_num [Dbl.neg, Dbl.le, Dbl.val, M_PI]

/-- Soft-cushion sign, where it holds: on a joint with active hard velocity and position
limits and present soft limits, with a finite previous commanded position and a measured
position above `soft.max_position`, the upper velocity bound that `on_enforce` applies
to `desired.velocity` is at most one degree per second, provided the acceleration term
`actual.velocity + max_acceleration * dt` of line 170 is not NaN. -/
theorem soft_cushion_upper_bound (E : Env) (name : String) (hard : JointLimits)
    (soft : SoftJointLimits) (prev actual desired : JointControlInterfacesData)
    (dts p_act v : Dbl)
    (hvel : hard.has_velocity_limits = true) (hpos : hard.has_position_limits = true)
    (hsoft : E.has_soft_limits soft = true)
    (hprev : (prev_command_position prev actual).isfinite = true)
    (hact : actual.position = some p_act) (habove : Dbl.lt soft.max_position p_act = true)
    (hv : desired.velocity = some v)
    (hacc : ∀ av, hard.has_acceleration_limits = true → actual.velocity = some av →
      Dbl.add av (Dbl.mul hard.max_acceleration dts) ≠ Dbl.nan) :
    Dbl.le (velocity_interval E name hard soft prev actual desired dts).2
      soft_limit_reach_velocity = true := by
  have hzero : Dbl.le (Dbl.fin 0) soft_limit_reach_velocity = true := by
    rw [soft_limit_reach_velocity_eq]; norm_num [Dbl.le, Dbl.val, M_PI]
  have hsv : Dbl.le (soft_velocity_envelope E hard soft prev actual).2
      soft_limit_reach_velocity = true := by
    have hap : act_position prev actual = p_act := by simp [act_position, hact]
    simp only [soft_velocity_envelope, hvel, hpos, hsoft, hprev, hap, habove, Bool.and_self,
      Bool.or_true, if_true]
    split_ifs
    · exact hzero
    · exact copysign_reach_le _ _
  simp only [velocity_interval, hv, velocity_bounds]
  apply Dbl.min_le_of_left_le
  cases hav : actual.velocity with
  | none => simpa using hsv
  | some av =>
    by_cases ha : hard.has_acceleration_limits = true
    · simp only [ha, if_true]
      exact Dbl.min_le_of_right_le (hacc av ha hav) hsv
    · simpa [ha] using hsv

/-- C8, at the failing input: hard limits position `[-1, +1]`, velocity 2, acceleration
10; soft limits `[-0.5, +0.5]` with `k_position = 16`; previous commanded position 0.75;
`actual.position = 0.75` (above the soft, below the hard upper limit),
`actual.velocity = NaN`; `dt = 0.01`.  The bounds handed to `std::clamp` for the velocity
are both NaN, so the upper bound is not at most one degree per second, and
`desired.velocity = 1000` comes back unchanged with the return value `false`. -/
theorem nan_measured_velocity_lifts_bound :
    velocity_interval scenario_env "joint1" all_limits cushion_soft_limits
        cushion_limiter.prev_command nan_velocity_state fast_command
        (Duration.seconds ⟨10000000⟩) = (Dbl.nan, Dbl.nan) ∧
      Dbl.le Dbl.nan soft_limit_reach_velocity = false ∧
      (on_enforce scenario_env cushion_limiter nan_velocity_state fast_command
        ⟨10000000⟩).map (fun r => (r.desired.velocity, r.limits_enforced)) =
        some (some (Dbl.fin 1000), false) := by
  have hiv : velocity_interval scenario_env "joint1" all_limits cushion_soft_limits
        cushion_limiter.prev_command nan_velocity_state fast_command
        (Duration.seconds ⟨10000000⟩) = (Dbl.nan, Dbl.nan) := by
    simp [velocity_interval, velocity_bounds, all_limits, nan_velocity_state, fast_command,
      Dbl.max, Dbl.min, Dbl.sub, Dbl.add, Dbl.lt_nan_left, Dbl.lt_nan_right]
  refine ⟨hiv, by simp [Dbl.le], ?_⟩
  rw [on_enforce_pos scenario_env _ _ _ _ all_limits [] "joint1" [] (by decide) rfl rfl]
  have hseed : seed_prev_command cushion_limiter.prev_command nan_velocity_state
      fast_command = cushion_limiter.prev_command :=
    seed_prev_command_of_has_data _ _ _ rfl
  have hsoft : soft_limits_of scenario_env cushion_limiter = cushion_soft_limits := rfl
  simp only [Option.map_some', enforce_joint, clamp_flag, clamp_steps, hseed, hsoft, hiv]
  simp [sanitation_fires, sanitize, limited, clamped, non_finite, clamp, is_limited,
    fast_command, Dbl.lt, Dbl.isfinite]

/-! ### C9: `init` with the limits handed over -/

/-- C9: the `init` overload that takes the limits directly returns `true` if and only
if `joint_names.size() == joint_limits.size()` and `on_init()` returns `true`; when the
two lengths differ it returns `false` and `on_init` is not invoked (and when they agree
`on_init` is invoked exactly once). -/
theorem init_with_limits_result {σ S : Type} (H : Hooks σ S)
    (self : JointLimiterInterface σ) (joint_names : List String)
    (joint_limits : List JointLimits) (soft_joint_limits : List SoftJointLimits)
    (param_itf logging_itf : Bool) :
    ((init_with_limits H self joint_names joint_limits soft_joint_limits param_itf
          logging_itf).1 = true ↔
        (joint_names.length = joint_limits.length ∧
          (H.on_init (store_limits self joint_names joint_limits soft_joint_limits param_itf
            logging_itf)).1 = true)) ∧
      (joint_names.length ≠ joint_limits.length →
        (init_with_limits H self joint_names joint_limits soft_joint_limits param_itf
          logging_itf).1 = false ∧
        (init_with_limits H self joint_names joint_limits soft_joint_limits param_itf
          logging_itf).2.on_init_calls = self.on_init_calls) ∧
      (joint_names.length = joint_limits.length →
        (init_with_limits H self joint_names joint_limits soft_joint_limits param_itf
          logging_itf).2.on_init_calls = self.on_init_calls + 1) := by
  by_cases h : joint_names.length = joint_limits.length
  · simp [init_with_limits, store_limits, call_on_init, h]
  · refine ⟨?_, ?_, fun h' => absurd h' h⟩
    · by_cases hlog : logging_itf = true <;>
        simp [init_with_limits, store_limits, call_on_init, h, hlog]
    · intro _
      by_cases hlog : logging_itf = true <;>
        simp [init_with_limits, store_limits, call_on_init, h, hlog]

/-! ### C10: visibility of limit updates -/

/-- The parameter-event callback never writes the active `joint_limits_`, nor the joint
names: only the buffer. -/
theorem callback_keeps_active_limits {σ P : Type} (F : ParamSource P)
    (self : JointLimiterInterface σ) (parameters : List P) :
    (on_parameter_event_callback F self parameters).joint_limits = self.joint_limits ∧
      (on_parameter_event_callback F self parameters).joint_names = self.joint_names := by
  by_cases h : (check_all_joints F parameters self.joint_names self.joint_limits).1 = true <;>
    simp [on_parameter_event_callback, h]

/-- What the code does on two callbacks in a row that both change a limit: the buffer
ends with the second update applied to the limits that were active before the first
callback; the first update is not part of it. -/
theorem two_callbacks_publish_last_only {σ P : Type} (F : ParamSource P)
    (self : JointLimiterInterface σ) (first second : List P)
    (h2 : (check_all_joints F second self.joint_names self.joint_limits).1 = true) :
    (read_updated_limits (run_callbacks F self [first, second])).joint_limits =
      (check_all_joints F second self.joint_names self.joint_limits).2 := by
  obtain ⟨k1, k2⟩ := callback_keeps_active_limits F self first
  have h2' : (check_all_joints F second (on_parameter_event_callback F self first).joint_names
      (on_parameter_event_callback F self first).joint_limits).1 = true := by
    rw [k1, k2]; exact h2
  simp only [run_callbacks, read_updated_limits]
  generalize on_parameter_event_callback F self first = s1 at k1 k2 h2' ⊢
  simp only [on_parameter_event_callback, k1, k2, h2, if_true]

/-- One callback that changes a limit is visible to the next `enforce`: the active limits
are its update applied to the limits that were active before it. -/
theorem single_callback_is_visible {σ P : Type} (F : ParamSource P)
    (self : JointLimiterInterface σ) (parameters : List P)
    (h : (check_all_joints F parameters self.joint_names self.joint_limits).1 = true) :
    (read_updated_limits (run_callbacks F self [parameters])).joint_limits =
      apply_updates F self.joint_names self.joint_limits [parameters] := by
  simp [run_callbacks, read_updated_limits, on_parameter_event_callback, apply_updates, h]

/-- C10, at the failing input: after the parameter-based `init` of `joint1` (velocity
limit 2, effort limit 50), a callback that sets `max_velocity` to 1 and then a callback
that sets `max_effort` to 5 both report a change; the limits the next `enforce` makes
active have `max_effort = 5` but still `max_velocity = 2`, whereas applying both updates
in order gives `max_velocity = 1` and `max_effort = 5`. -/
theorem second_callback_drops_first_update :
    initialised_limiter.joint_limits = [all_limits] ∧
      (check_all_joints scenario_source slow_down initialised_limiter.joint_names
        initialised_limiter.joint_limits).1 = true ∧
      (check_all_joints scenario_source weaken
        (on_parameter_event_callback scenario_source initialised_limiter
          slow_down).joint_names
        (on_parameter_event_callback scenario_source initialised_limiter
          slow_down).joint_limits).1 = true ∧
      (enforce scenario_hooks
        (run_callbacks scenario_source initialised_limiter [slow_down, weaken]) () ()
        ⟨10000000⟩).2.2.joint_limits = [{ all_limits with max_effort := Dbl.fin 5 }] ∧
      apply_updates scenario_source initialised_limiter.joint_names
        initialised_limiter.joint_limits [slow_down, weaken] =
        [{ all_limits with max_velocity := Dbl.fin 1, max_effort := Dbl.fin 5 }] ∧
      ({ all_limits with max_effort := Dbl.fin 5 } : JointLimits).max_velocity = Dbl.fin 2 := by
  have hinit : initialised_limiter =
      { fresh_limiter with
        number_of_joints := 1, joint_names := ["joint1"], joint_limits := [all_limits],
        node_param_itf := true, node_logging_itf := true, updated_limits := [all_limits],
        parameter_callback := true, on_init_calls := 1 } := by
    simp [initialised_limiter, init, read_parameters, resize_limits, call_on_init,
      scenario_source, scenario_hooks, fresh_limiter]
  rw [hinit]
  refine ⟨rfl, ?_, ?_, ?_, ?_, rfl⟩
  · norm_num [check_all_joints, scenario_source, scenario_check_for_limits_update, set_limit,
      slow_down, all_limits, fresh_limiter]
  · norm_num [on_parameter_event_callback, check_all_joints, scenario_source,
      scenario_check_for_limits_update, set_limit, slow_down, weaken, all_limits,
      fresh_limiter]
  · norm_num [enforce, read_updated_limits, run_callbacks, on_parameter_event_callback,
      check_all_joints, scenario_source, scenario_check_for_limits_update, set_limit,
      slow_down, weaken, all_limits, fresh_limiter, scenario_hooks]
  · norm_num [apply_updates, check_all_joints, scenario_source,
      scenario_check_for_limits_update, set_limit, slow_down, weaken, all_limits,
      fresh_limiter]

/-! ### C11: a jerk without an active limit -/

/-- What the jerk step (lines 221-227) and the sanitation do: the jerk written back is
the desired jerk clamped to `[-max_jerk, +max_jerk]`, then zeroed if non-finite;
`has_jerk_limits` is not read. -/
theorem jerk_written_back (E : Env) (self : JointSoftLimiter) (name : String)
    (hard : JointLimits) (soft : SoftJointLimits)
    (actual desired : JointControlInterfacesData) (dts : Dbl) :
    (enforce_joint E self name hard soft actual desired dts).desired.jerk =
      (if non_finite (clamped E desired.jerk (Dbl.neg hard.max_jerk, hard.max_jerk)) then
        some (Dbl.fin 0)
      else clamped E desired.jerk (Dbl.neg hard.max_jerk, hard.max_jerk)) := by
  simp only [enforce_joint, sanitize, clamp_steps, jerk_interval]

/-- Where C11 holds: with `max_jerk` left at NaN, as default-constructed, the jerk step
neither changes nor flags a finite desired jerk. -/
theorem jerk_untouched_by_nan_limit (E : Env) (self : JointSoftLimiter) (name : String)
    (hard : JointLimits) (soft : SoftJointLimits)
    (actual desired : JointControlInterfacesData) (dts j : Dbl)
    (hmax : hard.max_jerk = Dbl.nan) (hj : desired.jerk = some j)
    (hfin : j.isfinite = true) :
    (enforce_joint E self name hard soft actual desired dts).desired.jerk = some j ∧
      limited desired.jerk (jerk_interval hard) = false := by
  rw [jerk_written_back]
  simp [hj, hmax, clamped, clamp, limited, is_limited, jerk_interval, non_finite, hfin,
    Dbl.neg, Dbl.lt_nan_left, Dbl.lt_nan_right]

/-- C11, at the failing input: hard limits with `has_jerk_limits = false` and
`max_jerk = 1`, a `desired` that carries only the finite jerk 5, `dt = 0.01`.  The jerk
comes back as 1 and the call returns `true`. -/
theorem inactive_jerk_limit_still_clamps :
    stale_jerk_limits.has_jerk_limits = false ∧
      (on_enforce scenario_env (limiter_of stale_jerk_limits) empty_sample jerk_command
        ⟨10000000⟩).map (fun r => (r.desired.jerk, r.limits_enforced)) =
        some (some (Dbl.fin 1), true) := by
  refine ⟨rfl, ?_⟩
  rw [on_enforce_pos scenario_env _ _ _ _ stale_jerk_limits [] "joint1" [] (by decide) rfl
    rfl]
  norm_num [enforce_joint, clamp_flag, clamp_steps, sanitation_fires, sanitize, limited,
    clamped, non_finite, clamp, is_limited, jerk_interval, stale_jerk_limits, no_limits,
    jerk_command, Dbl.neg, Dbl.lt, Dbl.val, Dbl.isfinite]

/-! ### C12: the freeze outside the hard envelope -/

/-- With a finite measured position the previous commanded position `on_enforce` works
with (lines 86-89) is finite. -/
theorem prev_command_position_finite (prev actual : JointControlInterfacesData) (p_act : Dbl)
    (hact : actual.position = some p_act) (hfin : p_act.isfinite = true) :
    (prev_command_position prev actual).isfinite = true := by
  unfold prev_command_position
  cases hp : prev.position with
  | none => simpa [hact] using hfin
  | some q =>
    by_cases hq : q.isfinite = true
    · simp [hq]
    · simpa [hq, hact] using hfin

/-- C12 (amended): on a joint with active hard velocity limits, active hard position
limits and present soft limits, if the measured position `p_act` is finite and below
`hard.min_position - POSITION_BOUNDS_TOLERANCE` or above
`hard.max_position + POSITION_BOUNDS_TOLERANCE`, then the soft velocity envelope
`[soft_min_vel, soft_max_vel]` of lines 78-130 is exactly `[0, 0]`, whatever the previous
command is, and the only velocities not outside it are the zeros. -/
theorem freeze_outside_hard_envelope (E : Env) (hard : JointLimits) (soft : SoftJointLimits)
    (prev actual : JointControlInterfacesData) (p_act : Dbl)
    (hvel : hard.has_velocity_limits = true) (hpos : hard.has_position_limits = true)
    (hsoft : E.has_soft_limits soft = true)
    (hact : actual.position = some p_act) (hfin : p_act.isfinite = true)
    (hout : Dbl.lt p_act (Dbl.sub hard.min_position E.POSITION_BOUNDS_TOLERANCE) = true ∨
      Dbl.lt (Dbl.add hard.max_position E.POSITION_BOUNDS_TOLERANCE) p_act = true) :
    soft_velocity_envelope E hard soft prev actual = (Dbl.fin 0, Dbl.fin 0) ∧
      ∀ v, v ≠ Dbl.nan →
        is_limited v (soft_velocity_envelope E hard soft prev actual).1
          (soft_velocity_envelope E hard soft prev actual).2 = false →
        v.isZero = true := by
  have hprev := prev_command_position_finite prev actual p_act hact hfin
  have hap : act_position prev actual = p_act := by simp [act_position, hact]
  have hor : (Dbl.lt p_act (Dbl.sub hard.min_position E.POSITION_BOUNDS_TOLERANCE) ||
      Dbl.lt (Dbl.add hard.max_position E.POSITION_BOUNDS_TOLERANCE) p_act) = true := by
    rcases hout with h | h <;> simp [h]
  have henv : soft_velocity_envelope E hard soft prev actual = (Dbl.fin 0, Dbl.fin 0) := by
    simp only [soft_velocity_envelope, hvel, hpos, hsoft, hprev, hap, hfin, hor, Bool.and_self,
      if_true]
  refine ⟨henv, ?_⟩
  intro v hv hl
  rw [henv] at hl
  cases v <;> simp [is_limited, Dbl.lt, Dbl.val, Dbl.isZero] at hv hl ⊢
  exact le_antisymm hl.2 hl.1

/-- C12, on a concrete call: hard limits position `[-1, +1]` and velocity 2, soft limits
`[-0.5, +0.5]`, tolerance 0.001, measured position 5: the soft velocity envelope is
`[0, 0]`. -/
theorem freeze_outside_hard_envelope_witness :
    soft_velocity_envelope scenario_env all_limits cushion_soft_limits
        cushion_limiter.prev_command beyond_hard = (Dbl.fin 0, Dbl.fin 0) :=
  (freeze_outside_hard_envelope scenario_env all_limits cushion_soft_limits
    cushion_limiter.prev_command beyond_hard (Dbl.fin 5) rfl rfl
    (by norm_num [scenario_env, scenario_has_soft_limits, scenario_has_soft_position_limits,
      cushion_soft_limits, Dbl.lt, Dbl.val, Dbl.isfinite])
    rfl rfl
    (Or.inr (by norm_num [scenario_env, all_limits, Dbl.add, Dbl.lt, Dbl.val]))).1

/-- C12 as stated fails.  Without hard velocity limits (hard position limits `[-1, +1]`
only, soft limits `[-0.5, +0.5]` present, previous commanded position 0.75, measured
position 5 above `max_position + 0.001`) the soft velocity envelope stays
`[-inf, +inf]` and the velocity 3 is not outside it.  And with hard velocity limits but
a measured position `+inf`, the envelope is the recovery one, minus one degree per
second at both ends, not `[0, 0]`. -/
theorem no_freeze_without_velocity_limits :
    (position_limits_only.has_position_limits = true ∧
      scenario_env.has_soft_limits cushion_soft_limits = true ∧
      Dbl.lt (Dbl.add position_limits_only.max_position
        scenario_env.POSITION_BOUNDS_TOLERANCE) (Dbl.fin 5) = true ∧
      soft_velocity_envelope scenario_env position_limits_only cushion_soft_limits
        cushion_limiter.prev_command beyond_hard = (Dbl.ninf, Dbl.pinf) ∧
      is_limited (Dbl.fin 3) Dbl.ninf Dbl.pinf = false) ∧
    (Dbl.lt (Dbl.add all_limits.max_position scenario_env.POSITION_BOUNDS_TOLERANCE)
        Dbl.pinf = true ∧
      soft_velocity_envelope scenario_env all_limits cushion_soft_limits
        cushion_limiter.prev_command infinite_position =
        (Dbl.neg soft_limit_reach_velocity, Dbl.neg soft_limit_reach_velocity)) := by
  refine ⟨⟨rfl, ?_, ?_, ?_, ?_⟩, ?_, ?_⟩
  · norm_num [scenario_env, scenario_has_soft_limits, scenario_has_soft_position_limits,
      cushion_soft_limits, Dbl.lt, Dbl.val, Dbl.isfinite]
  · norm_num [scenario_env, position_limits_only, no_limits, Dbl.add, Dbl.lt, Dbl.val]
  · simp [soft_velocity_envelope, position_limits_only, no_limits]
  · simp [is_limited, Dbl.lt]
  · norm_num [scenario_env, all_limits, Dbl.add, Dbl.lt, Dbl.val]
  · rw [soft_limit_reach_velocity_eq]
    norm_num [soft_velocity_envelope, act_position, prev_command_position, all_limits,
      cushion_soft_limits, cushion_limiter, empty_sample, infinite_position, scenario_env,
      scenario_has_soft_limits, scenario_has_soft_position_limits, clamp, Dbl.copysign,
      Dbl.signbit, Dbl.neg, Dbl.mul, Dbl.sub, Dbl.add, Dbl.lt, Dbl.val, Dbl.isfinite,
      Dbl.isNaN, Dbl.isInf, Dbl.isZero, soft_limit_reach_velocity_eq, M_PI]

/-! ### C13: the precondition of `std::clamp` -/

namespace Dbl

theorem lt_trans {x y z : Dbl} (h1 : lt x y = true) (h2 : lt y z = true) :
    lt x z = true := by
  cases x <;> cases y <;> cases z <;> simp [lt, val] at h1 h2 ⊢ <;> linarith

theorem lt_of_le_of_lt {x y z : Dbl} (h1 : le x y = true) (h2 : lt y z = true) :
    lt x z = true := by
  cases x <;> cases y <;> cases z <;> simp [lt, le, val] at h1 h2 ⊢ <;> linarith

/-- `std::max(x, y)` is above every value below `x`. -/
theorem lt_max_of_lt_left {m x y : Dbl} (h : lt m x = true) : lt m (max x y) = true := by
  unfold max
  by_cases hlt : lt x y = true
  · simp only [hlt, if_true]; exact lt_trans h hlt
  · have hf : lt x y = false := by simpa using hlt
    simpa only [hf] using h

end Dbl

/-- How lines 165-174 invert the velocity interval: on a joint with acceleration limits,
when the measured velocity is more than `max_acceleration * dt` above an upper bound `m`
of the soft velocity envelope, the interval handed to `std::clamp` for the velocity has
its upper bound below its lower bound, whatever `compute_velocity_limits` returns. -/
theorem velocity_interval_inverted (E : Env) (name : String) (hard : JointLimits)
    (soft : SoftJointLimits) (prev actual desired : JointControlInterfacesData)
    (dts av v m : Dbl)
    (hacc : hard.has_acceleration_limits = true) (hav : actual.velocity = some av)
    (hv : desired.velocity = some v)
    (hup : Dbl.le (soft_velocity_envelope E hard soft prev actual).2 m = true)
    (hfast : Dbl.lt m (Dbl.sub av (Dbl.mul hard.max_acceleration dts)) = true)
    (hadd : Dbl.add av (Dbl.mul hard.max_acceleration dts) ≠ Dbl.nan) :
    Dbl.lt (velocity_interval E name hard soft prev actual desired dts).2
      (velocity_interval E name hard soft prev actual desired dts).1 = true := by
  simp only [velocity_interval, hv, velocity_bounds, hav, hacc, if_true]
  exact Dbl.lt_of_le_of_lt
    (Dbl.min_le_of_left_le (Dbl.min_le_of_right_le hadd hup))
    (Dbl.lt_max_of_lt_left (Dbl.lt_max_of_lt_left hfast))

/-- The velocity interval of the approach scenario: `[1.4, 1]`. -/
theorem approach_velocity_interval :
    velocity_interval scenario_env "joint1" all_limits damped_soft_limits approach_sample
      approach_sample approach_sample (Duration.seconds ⟨10000000⟩) =
      (Dbl.fin (7 / 5), Dbl.fin 1) := by
  simp only [velocity_interval, approach_envelope]
  norm_num [velocity_bounds, all_limits, approach_sample, scenario_env,
    scenario_velocity_limits, Duration.seconds, Dbl.max, Dbl.min, Dbl.neg, Dbl.mul, Dbl.sub,
    Dbl.add, Dbl.lt, Dbl.val, Dbl.isfinite, Dbl.isNaN, Dbl.isInf, Dbl.isZero, Dbl.signbit]

/-- The effort interval of the approach scenario: `[-0.1, -0.5]`. -/
theorem approach_effort_interval :
    effort_interval scenario_env "joint1" all_limits damped_soft_limits approach_sample
      approach_sample approach_sample (Duration.seconds ⟨10000000⟩) =
      (Dbl.fin (-1 / 10), Dbl.fin (-1 / 2)) := by
  simp only [effort_interval, approach_velocity_interval]
  norm_num [effort_bounds, all_limits, damped_soft_limits, approach_sample, scenario_env,
    scenario_effort_limits, clamp, Dbl.max, Dbl.min, Dbl.neg, Dbl.mul, Dbl.sub,
    Dbl.add, Dbl.lt, Dbl.val, Dbl.isfinite, Dbl.isNaN, Dbl.isInf, Dbl.isZero, Dbl.signbit]

/-- C13, at the failing input: hard limits position `[-1, +1]`, velocity 2, acceleration
10, effort 50; soft limits `[-0.5, +0.5]` with `k_position = 16` and `k_velocity = 1`;
`dt = 0.01`; the previous command, the measurement and the desired sample all at position
0.4375 with velocity 1.5 and effort 0.  The limits are well formed, the samples finite,
and the solver helpers return the intervals `[0.4175, 0.4575]`, `[1.4, 1.6]` and
`[-50, 50]`, lower bound below upper bound.  The position interval is
`[0.4175, 0.4475]`, but the velocity interval handed to `std::clamp` is `[1.4, 1]` and
the effort interval `[-0.1, -0.5]`: both have the upper bound below the lower bound, so
the calls of lines 178 and 207 are outside the precondition of `std::clamp`. -/
theorem clamp_precondition_violated :
    (soft_limits_of scenario_env damped_limiter = damped_soft_limits ∧
      seed_prev_command damped_limiter.prev_command approach_sample approach_sample =
        approach_sample) ∧
    (scenario_env.compute_position_limits "joint1" all_limits approach_sample.velocity
        approach_sample.position approach_sample.position (Duration.seconds ⟨10000000⟩) =
        { lower_limit := Dbl.fin (167 / 400), upper_limit := Dbl.fin (183 / 400) } ∧
      scenario_env.compute_velocity_limits "joint1" all_limits (Dbl.fin (3 / 2))
        approach_sample.position approach_sample.velocity (Duration.seconds ⟨10000000⟩) =
        { lower_limit := Dbl.fin (7 / 5), upper_limit := Dbl.fin (8 / 5) } ∧
      scenario_env.compute_effort_limits all_limits approach_sample.position
        approach_sample.velocity (Duration.seconds ⟨10000000⟩) =
        { lower_limit := Dbl.fin (-50), upper_limit := Dbl.fin 50 }) ∧
    position_interval scenario_env "joint1" all_limits damped_soft_limits approach_sample
      approach_sample (Duration.seconds ⟨10000000⟩) =
      (Dbl.fin (167 / 400), Dbl.fin (179 / 400)) ∧
    velocity_interval scenario_env "joint1" all_limits damped_soft_limits approach_sample
      approach_sample approach_sample (Duration.seconds ⟨10000000⟩) =
      (Dbl.fin (7 / 5), Dbl.fin 1) ∧
    effort_interval scenario_env "joint1" all_limits damped_soft_limits approach_sample
      approach_sample approach_sample (Duration.seconds ⟨10000000⟩) =
      (Dbl.fin (-1 / 10), Dbl.fin (-1 / 2)) ∧
    Dbl.lt (Dbl.fin 1) (Dbl.fin (7 / 5)) = true ∧
    Dbl.lt (Dbl.fin (-1 / 2)) (Dbl.fin (-1 / 10)) = true ∧
    clamp_calls_defined scenario_env "joint1" all_limits damped_soft_limits approach_sample
      approach_sample approach_sample (Duration.seconds ⟨10000000⟩) = false := by
  refine ⟨⟨rfl, rfl⟩, ⟨?_, ?_, ?_⟩, ?_, approach_velocity_interval, approach_effort_interval,
    ?_, ?_, ?_⟩
  · norm_num [scenario_env, scenario_position_limits, all_limits, approach_sample,
      Duration.seconds, Dbl.max, Dbl.min, Dbl.neg, Dbl.mul, Dbl.sub, Dbl.add, Dbl.lt,
      Dbl.val, Dbl.isfinite, Dbl.isNaN, Dbl.isInf, Dbl.isZero, Dbl.signbit]
  · norm_num [scenario_env, scenario_velocity_limits, all_limits, approach_sample,
      Duration.seconds, Dbl.max, Dbl.min, Dbl.neg, Dbl.mul, Dbl.sub, Dbl.add, Dbl.lt,
      Dbl.val, Dbl.isfinite, Dbl.isNaN, Dbl.isInf, Dbl.isZero, Dbl.signbit]
  · norm_num [scenario_env, scenario_effort_limits, all_limits, Dbl.neg]
  · simp only [position_interval, approach_envelope]
    norm_num [position_bounds, prev_command_position, all_limits, damped_soft_limits,
      approach_sample, scenario_env, scenario_position_limits,
      scenario_has_soft_position_limits, clamp, Duration.seconds, Dbl.max, Dbl.min, Dbl.neg,
      Dbl.mul, Dbl.sub, Dbl.add, Dbl.lt, Dbl.val, Dbl.isfinite, Dbl.isNaN, Dbl.isInf,
      Dbl.isZero, Dbl.signbit]
  · norm_num [Dbl.lt, Dbl.val]
  · norm_num [Dbl.lt, Dbl.val]
  · have hv : clamp_defined approach_sample.velocity
        (velocity_interval scenario_env "joint1" all_limits damped_soft_limits
          approach_sample approach_sample approach_sample (Duration.seconds ⟨10000000⟩)) =
        false := by
      rw [approach_velocity_interval]
      norm_num [clamp_defined, approach_sample, Dbl.lt, Dbl.val]
    simp only [clamp_calls_defined, hv, Bool.and_false, Bool.false_and]

end joint_limits
